import Mathlib

/-!
Verification development for the evaluator/validator core of the
claude-code-prompting-101 repository: a shallow embedding of
`resources/tools/response-analyzer.py` (quality-metric scorer) and
`resources/tools/xml-validator.py` (XML structural validator), with theorems
settling the frozen specification claims.

Python strings are modelled as `List Char`, Python floats as `ℚ`, Python
dictionaries as association lists with replace-on-insert semantics, and the
standard-library collaborators (`re`, `xml.etree.ElementTree`, `json`) as
executable Lean functions over the feature subset those tools use.
-/

namespace S2P

/-! ## Basic string utilities (Python `str` helpers) -/

/-- Characters Python's `str.strip()` removes (ASCII whitespace subset). -/
def isSpaceChar (c : Char) : Bool :=
  c = ' ' || c = '\t' || c = '\n' || c = '\x0d' || c = '\x0c' || c = '\x0b'

/-- Python `s.strip()` on a list of characters. -/
def stripChars (s : List Char) : List Char :=
  ((s.dropWhile isSpaceChar).reverse.dropWhile isSpaceChar).reverse

/-- Python `s.strip()` on a `String`. -/
def strip (s : String) : String :=
  ⟨stripChars s.data⟩

/-- Python `s.lower()` (ASCII case folding). -/
def lowerChars (s : List Char) : List Char :=
  s.map Char.toLower

/-- Python substring test `needle in hay`. -/
def substrB (needle hay : List Char) : Bool :=
  (List.range (hay.length + 1)).any (fun i => needle.isPrefixOf (hay.drop i))

/-- Case-insensitive substring test (`needle.lower() in hay.lower()`). -/
def substrCI (needle hay : List Char) : Bool :=
  substrB (lowerChars needle) (lowerChars hay)

/-- Python `", ".join(xs)`-style joining. -/
def joinSep (sep : String) : List String → String
  | [] => ""
  | [x] => x
  | x :: xs => x ++ sep ++ joinSep sep xs

/-- Split on a separator character, Python `s.split(sep)` style (empty
pieces preserved; the empty string yields one empty piece). -/
def splitOnCh (sep : Char) : List Char → List Char → List String
  | [], acc => [⟨acc.reverse⟩]
  | c :: rest, acc =>
    if c = sep then (⟨acc.reverse⟩ : String) :: splitOnCh sep rest []
    else splitOnCh sep rest (c :: acc)

/-- Python `\w` test (ASCII subset of `[a-zA-Z0-9_]`). -/
def isWordChar (c : Char) : Bool :=
  c.isAlphanum || c = '_'

/-! ## Regular expressions

A small abstract syntax for the regexes that appear literally in the two
tools, with a backtracking matcher that returns every reachable end
position of a match starting at a given index (so greedy/lazy choices are
subsumed). -/

inductive RE where
  | eps : RE
  | ch : Char → RE
  | anyc : RE
  | digit : RE
  | wordc : RE
  | notCh : Char → RE
  | seq : RE → RE → RE
  | alt : RE → RE → RE
  | star : RE → RE
  | bol : RE
  | eol : RE
  | wordB : RE
deriving Repr, DecidableEq

/-- Literal string regex. -/
def strRE (s : String) : RE :=
  s.data.foldr (fun c e => RE.seq (RE.ch c) e) RE.eps

/-- `e?`. -/
def optRE (e : RE) : RE := RE.alt e RE.eps

/-- `e+`. -/
def plusRE (e : RE) : RE := RE.seq e (RE.star e)

/-- `e{n}`. -/
def repExact : Nat → RE → RE
  | 0, _ => RE.eps
  | n + 1, e => RE.seq e (repExact n e)

/-- Up to `n` further copies of `e` (each optional). -/
def repUpTo : Nat → RE → RE
  | 0, _ => RE.eps
  | n + 1, e => optRE (RE.seq e (repUpTo n e))

/-- `e{m,n}`. -/
def repRange (m n : Nat) (e : RE) : RE :=
  RE.seq (repExact m e) (repUpTo (n - m) e)

/-- Character comparison, optionally case-insensitive. -/
def eqCh (ci : Bool) (a b : Char) : Bool :=
  if ci then a.toLower = b.toLower else a = b

/-- One level of the matcher, structurally recursive on the regex;
`recStar` resumes iteration of a star (called only at strictly later
positions, with one unit of fuel less). -/
def matchEndsGo (s : List Char) (ci : Bool)
    (recStar : RE → Nat → List Nat) : RE → Nat → List Nat
  | .eps, i => [i]
  | .ch c, i =>
      match s[i]? with
      | some a => if eqCh ci a c then [i + 1] else []
      | none => []
  | .anyc, i =>
      match s[i]? with
      | some a => if a = '\n' then [] else [i + 1]
      | none => []
  | .digit, i =>
      match s[i]? with
      | some a => if a.isDigit then [i + 1] else []
      | none => []
  | .wordc, i =>
      match s[i]? with
      | some a => if isWordChar a then [i + 1] else []
      | none => []
  | .notCh c, i =>
      match s[i]? with
      | some a => if a = c then [] else [i + 1]
      | none => []
  | .seq a b, i =>
      ((matchEndsGo s ci recStar a i).flatMap (matchEndsGo s ci recStar b ·)).dedup
  | .alt a b, i =>
      (matchEndsGo s ci recStar a i ++ matchEndsGo s ci recStar b i).dedup
  | .star a, i =>
      (i :: ((matchEndsGo s ci recStar a i).filter (i < ·)).flatMap
        (recStar (.star a) ·)).dedup
  | .bol, i => if i = 0 then [i] else []
  | .eol, i =>
      if i = s.length then [i]
      else if i + 1 = s.length && s[i]? = some '\n' then [i] else []
  | .wordB, i =>
      let w : Option Char → Bool := fun oc =>
        match oc with
        | some c => isWordChar c
        | none => false
      if w s[i-1]? != w s[i]? || (i = 0 && w s[i]?) then [i] else []

/-- All end positions of a match of `e` in `s` starting at index `i`.
`fuel` bounds the nesting of star iterations; each iteration consumes at
least one character, so `s.length + 1` fuel is always enough (at exhausted
fuel only the star's empty iteration remains, which is exactly right at
the end of the input, the only place adequate fuel can run out). -/
def matchEnds (s : List Char) (ci : Bool) : Nat → RE → Nat → List Nat
  | 0, _, i => [i]
  | fuel + 1, e, i => matchEndsGo s ci (matchEnds s ci fuel) e i

/-- Python `re.search(pat, s, flags)` truthiness: a match starts somewhere. -/
def searchRE (ci : Bool) (pat : RE) (s : List Char) : Bool :=
  (List.range (s.length + 1)).any
    (fun i => !(matchEnds s ci (s.length + 1) pat i).isEmpty)

/-- Python `re.match(pat, s)` truthiness: a match starts at index 0
(anchored at the start only, not at the end). -/
def matchAtStart (pat : RE) (s : List Char) : Bool :=
  !(matchEnds s false (s.length + 1) pat 0).isEmpty

/-- Fueled scan for `findFrom`. -/
def findFromGo (s : List Char) (pat : RE) : Nat → Nat → Option (Nat × Nat)
  | 0, _ => none
  | fuel + 1, i =>
    if i ≤ s.length then
      match (matchEnds s false (s.length + 1) pat i).max? with
      | some e => some (i, e)
      | none => findFromGo s pat fuel (i + 1)
    else none

/-- Leftmost match of `pat` at or after `i`: its start and (greedy) end. -/
def findFrom (s : List Char) (pat : RE) (i : Nat) : Option (Nat × Nat) :=
  findFromGo s pat (s.length + 1 - i) i

/-- Number of matches `re.findall(pat, s)` returns: repeated leftmost
non-overlapping search, advancing past each match (and by one position
past an empty match). -/
def countMatches (pat : RE) (s : List Char) : Nat :=
  go (s.length + 1) 0
where
  go : Nat → Nat → Nat
    | 0, _ => 0
    | fuel + 1, i =>
      match findFrom s pat i with
      | some (st, en) => 1 + go fuel (max en (st + 1))
      | none => 0

/-! ## XML parsing (model of `xml.etree.ElementTree.fromstring`)

A recursive-descent parser for the well-formed-XML core the tools exercise:
tags with attributes, character data, self-closing tags, and the standard
entity references. Like `ElementTree`, an element records its tag, the text
between its open tag and its first child (`none` when that region is
empty), and its children in order; inter-sibling "tail" text is accepted
and discarded. Declarations, comments, processing instructions, CDATA and
DTDs are outside the modelled subset. -/

structure XMLElem where
  tag : String
  text : Option String
  children : List XMLElem
deriving Repr

/-- XML name start character (ASCII subset). -/
def isNameStart (c : Char) : Bool :=
  c.isAlpha || c = '_' || c = ':'

/-- XML name character (ASCII subset). -/
def isNameChar (c : Char) : Bool :=
  isNameStart c || c.isDigit || c = '-' || c = '.'

/-- Parse an XML name at the head of the input. -/
def parseXName : List Char → Except String (String × List Char)
  | [] => .error "unclosed token"
  | c :: rest =>
    if isNameStart c then
      .ok (⟨c :: rest.takeWhile isNameChar⟩, rest.dropWhile isNameChar)
    else .error "not well-formed (invalid token)"

/-- Decode the standard entity references in character data. -/
def decodeEnt : Nat → List Char → Except String (List Char)
  | 0, _ => .error "internal fuel exhausted"
  | _, [] => .ok []
  | fuel + 1, '&' :: rest =>
    let name := rest.takeWhile (· ≠ ';')
    match rest.dropWhile (· ≠ ';') with
    | ';' :: rest2 =>
      (decodeEnt fuel rest2).bind (fun tl =>
        match (⟨name⟩ : String) with
        | "amp" => .ok ('&' :: tl)
        | "lt" => .ok ('<' :: tl)
        | "gt" => .ok ('>' :: tl)
        | "quot" => .ok ('"' :: tl)
        | "apos" => .ok ('\'' :: tl)
        | _ =>
          match name with
          | '#' :: ds =>
            if ds ≠ [] && ds.all Char.isDigit then
              .ok (Char.ofNat (⟨'0' :: ds⟩ : String).toNat! :: tl)
            else .error "not well-formed (invalid token)"
          | _ => .error "undefined entity")
    | _ => .error "unclosed token"
  | fuel + 1, c :: rest =>
    (decodeEnt fuel rest).map (c :: ·)

/-- Parse and discard the attribute list of an open tag, stopping before
the closing `>` or `/>`. -/
def parseAttrs : Nat → List Char → Except String (List Char)
  | 0, _ => .error "internal fuel exhausted"
  | fuel + 1, cs =>
    match cs.dropWhile isSpaceChar with
    | [] => .error "unclosed token"
    | '>' :: rest => .ok ('>' :: rest)
    | '/' :: rest => .ok ('/' :: rest)
    | cs2 =>
      (parseXName cs2).bind (fun p =>
        match p.2.dropWhile isSpaceChar with
        | '=' :: r2 =>
          match r2.dropWhile isSpaceChar with
          | '"' :: r3 =>
            match r3.dropWhile (· ≠ '"') with
            | '"' :: r4 => parseAttrs fuel r4
            | _ => .error "unclosed token"
          | '\'' :: r3 =>
            match r3.dropWhile (· ≠ '\'') with
            | '\'' :: r4 => parseAttrs fuel r4
            | _ => .error "unclosed token"
          | _ => .error "not well-formed (invalid token)"
        | _ => .error "not well-formed (invalid token)")

mutual

/-- Parse one element starting at `<`. -/
def parseElem : Nat → List Char → Except String (XMLElem × List Char)
  | 0, _ => .error "internal fuel exhausted"
  | fuel + 1, cs =>
    match cs with
    | '<' :: rest =>
      (parseXName rest).bind (fun (tag, r1) =>
        (parseAttrs (r1.length + 1) r1).bind (fun r2 =>
          match r2 with
          | '/' :: '>' :: r3 => .ok (⟨tag, none, []⟩, r3)
          | '>' :: r3 => parseContent fuel tag r3 [] []
          | _ => .error "not well-formed (invalid token)"))
    | _ => .error "not well-formed (invalid token)"

/-- Parse element content up to and including the matching close tag.
`textAcc` accumulates decoded text seen before the first child; `kids`
holds the children parsed so far, in reverse. -/
def parseContent : Nat → String → List Char → List Char → List XMLElem →
    Except String (XMLElem × List Char)
  | 0, _, _, _, _ => .error "internal fuel exhausted"
  | fuel + 1, tag, cs, textAcc, kids =>
    let txt := cs.takeWhile (· ≠ '<')
    let rest := cs.dropWhile (· ≠ '<')
    (decodeEnt (txt.length + 1) txt).bind (fun txtD =>
      let textAcc := if kids.isEmpty then textAcc ++ txtD else textAcc
      match rest with
      | '<' :: '/' :: r2 =>
        (parseXName r2).bind (fun (cname, r3) =>
          match r3.dropWhile isSpaceChar with
          | '>' :: r4 =>
            if cname = tag then
              .ok (⟨tag, if textAcc.isEmpty then none else some ⟨textAcc⟩,
                    kids.reverse⟩, r4)
            else .error "mismatched tag"
          | _ => .error "not well-formed (invalid token)")
      | '<' :: _ =>
        (parseElem fuel rest).bind (fun (child, r2) =>
          parseContent fuel tag r2 textAcc (child :: kids))
      | _ => .error "no element found")

end

/-- Model of `ET.fromstring`: parse a complete XML document consisting of
a single root element, allowing surrounding whitespace only. -/
def parseXML (s : String) : Except String XMLElem :=
  let cs := s.data.dropWhile isSpaceChar
  match cs with
  | [] => .error "no element found"
  | '<' :: _ =>
    (parseElem (cs.length + 1) cs).bind (fun (root, rest) =>
      if rest.dropWhile isSpaceChar = [] then .ok root
      else .error "junk after document element")
  | _ => .error "syntax error"

/-- Pre-order traversal of an element tree (model of `Element.iter()`). -/
def iterElems : XMLElem → List XMLElem
  | ⟨t, tx, cs⟩ =>
    ⟨t, tx, cs⟩ :: cs.attach.flatMap (fun c => iterElems c.1)
decreasing_by
  have := List.sizeOf_lt_of_mem c.2
  simp only [XMLElem.mk.sizeOf_spec]
  omega

/-! ## JSON well-formedness (model of `json.loads` success) -/

/-- JSON whitespace. -/
def isJWs (c : Char) : Bool :=
  c = ' ' || c = '\t' || c = '\n' || c = '\x0d'

/-- Consume one JSON string literal body after the opening quote. -/
def jString : Nat → List Char → Option (List Char)
  | 0, _ => none
  | _, '"' :: rest => some rest
  | fuel + 1, '\\' :: e :: rest =>
    if e = '"' || e = '\\' || e = '/' || e = 'b' || e = 'f' || e = 'n' ||
        e = 'r' || e = 't' then jString fuel rest
    else if e = 'u' then
      match rest with
      | a :: b :: c :: d :: rest2 =>
        if [a, b, c, d].all (fun x => x.isDigit || ('a' ≤ x && x ≤ 'f') ||
            ('A' ≤ x && x ≤ 'F')) then jString fuel rest2 else none
      | _ => none
    else none
  | fuel + 1, c :: rest =>
    if c = '\\' then none else jString fuel rest
  | _, [] => none

/-- Consume one JSON number. -/
def jNumber (cs : List Char) : Option (List Char) :=
  let (neg, cs) := match cs with
    | '-' :: r => (true, r)
    | _ => (false, cs)
  match cs with
  | 'N' :: 'a' :: 'N' :: r => if neg then none else some r
  | 'I' :: 'n' :: 'f' :: 'i' :: 'n' :: 'i' :: 't' :: 'y' :: r => some r
  | '0' :: r => fracExp r
  | c :: r =>
    if c.isDigit then fracExp (r.dropWhile Char.isDigit) else none
  | [] => none
where
  expPart (cs : List Char) : Option (List Char) :=
    match cs with
    | e :: r =>
      if e = 'e' || e = 'E' then
        let r := match r with
          | s :: r2 => if s = '+' || s = '-' then r2 else s :: r2
          | [] => []
        match r with
        | d :: r2 => if d.isDigit then some (r2.dropWhile Char.isDigit) else none
        | [] => none
      else some (e :: r)
    | [] => some []
  fracExp (cs : List Char) : Option (List Char) :=
    match cs with
    | '.' :: r =>
      match r with
      | d :: r2 => if d.isDigit then expPart (r2.dropWhile Char.isDigit) else none
      | [] => none
    | r => expPart r

mutual

/-- Consume one JSON value. -/
def jValue : Nat → List Char → Option (List Char)
  | 0, _ => none
  | fuel + 1, cs =>
    match cs with
    | '"' :: rest => jString (rest.length + 1) rest
    | '\x7b' :: rest => jMembers fuel (rest.dropWhile isJWs) true
    | '[' :: rest => jItems fuel (rest.dropWhile isJWs) true
    | 't' :: 'r' :: 'u' :: 'e' :: rest => some rest
    | 'f' :: 'a' :: 'l' :: 's' :: 'e' :: rest => some rest
    | 'n' :: 'u' :: 'l' :: 'l' :: rest => some rest
    | _ => jNumber cs

/-- Consume the members of a JSON object after `{`; `first` marks that no
member has been consumed yet. -/
def jMembers : Nat → List Char → Bool → Option (List Char)
  | 0, _, _ => none
  | fuel + 1, cs, first =>
    match cs with
    | '\x7d' :: rest => if first then some rest else none
    | '"' :: rest =>
      (jString (rest.length + 1) rest).bind (fun r1 =>
        match r1.dropWhile isJWs with
        | ':' :: r2 =>
          (jValue fuel (r2.dropWhile isJWs)).bind (fun r3 =>
            match r3.dropWhile isJWs with
            | ',' :: r4 =>
              match r4.dropWhile isJWs with
              | '"' :: r5 => jMembers fuel ('"' :: r5) false
              | _ => none
            | '\x7d' :: r4 => some r4
            | _ => none)
        | _ => none)
    | _ => none

/-- Consume the items of a JSON array after `[`. -/
def jItems : Nat → List Char → Bool → Option (List Char)
  | 0, _, _ => none
  | fuel + 1, cs, first =>
    match cs with
    | ']' :: rest => if first then some rest else none
    | _ =>
      (jValue fuel cs).bind (fun r1 =>
        match r1.dropWhile isJWs with
        | ',' :: r2 => jItems fuel (r2.dropWhile isJWs) false
        | ']' :: r2 => some r2
        | _ => none)

end

/-- Model of `json.loads(s)` succeeding. -/
def jsonParses (s : String) : Bool :=
  match jValue (s.length + 1) (s.data.dropWhile isJWs) with
  | some rest => rest.dropWhile isJWs = []
  | none => false

/-! ## Element-pair scan (Python `re.findall(r"<(\w+)[^>]*>(.*?)</\1>", s, re.DOTALL)`)

The backreference makes this pattern non-regular, so it is modelled as a
direct scan with the engine's backtracking order. At a position, `<` must
be followed by at least one word character; whatever prefix of the word
run `(\w+)` captures, `[^>]*` absorbs the rest of the run and everything
up to the first `>`, so the open tag always ends at that `>` and only the
captured name varies. The greedy group prefers the longest prefix, and
`(.*?)</\1>` lazily takes the content up to the first occurrence of that
name's literal close tag; on failure the engine backtracks `(\w+)` to the
next shorter prefix. Matches are non-overlapping and leftmost. -/

/-- Try to match `<` + word-run + `[^>]*>` at the head of the input:
return the full word run after `<` and the input after the first `>`. -/
def openTagAt : List Char → Option (List Char × List Char)
  | '<' :: rest =>
    let run := rest.takeWhile isWordChar
    if run.isEmpty then none
    else
      match (rest.dropWhile isWordChar).dropWhile (· ≠ '>') with
      | '>' :: r2 => some (run, r2)
      | _ => none
  | _ => none

/-- Find the first occurrence of `close` in the input; return the content
before it and the remainder after it. -/
def splitAtClose (close : List Char) : Nat → List Char → Option (List Char × List Char)
  | 0, _ => none
  | _ + 1, [] => none
  | fuel + 1, c :: rest =>
    if close.isPrefixOf (c :: rest) then some ([], (c :: rest).drop close.length)
    else (splitAtClose close fuel rest).map (fun p => (c :: p.1, p.2))

/-- Backtracking of the greedy `(\w+)` group: try the name prefixes of the
word run from longest (`k` characters) down to one character; the first
whose literal close tag occurs in the remainder wins, with the lazily
shortest content. Returns the captured name, the content, and the input
after the close tag. -/
def tryCloseTags (afterOpen run : List Char) : Nat → Option (String × List Char × List Char)
  | 0 => none
  | k + 1 =>
    let name := run.take (k + 1)
    match splitAtClose ('<' :: '/' :: name ++ ['>'])
        (afterOpen.length + 1) afterOpen with
    | some (content, rest) => some (⟨name⟩, content, rest)
    | none => tryCloseTags afterOpen run k

/-- All `(tag, content)` pairs the Python `findall` yields, in order. -/
def findElementPairs (s : List Char) : List (String × String) :=
  go (s.length + 1) s
where
  go : Nat → List Char → List (String × String)
    | 0, _ => []
    | _ + 1, [] => []
    | fuel + 1, c :: rest =>
      match openTagAt (c :: rest) with
      | some (run, afterOpen) =>
        match tryCloseTags afterOpen run run.length with
        | some (name, content, afterClose) =>
          (name, ⟨content⟩) :: go fuel afterClose
        | none => go fuel rest
      | none => go fuel rest

/-! ## Response analyzer (`resources/tools/response-analyzer.py`) -/

/-- Fold a list of regexes into their concatenation. -/
def reSeq (l : List RE) : RE := l.foldr RE.seq RE.eps

/-- Python `f"{x:.1%}"` on an exactly-representable value. -/
def fmtPct (x : ℚ) : String :=
  let n : ℤ := round (x * 1000)
  toString (n / 10) ++ "." ++ toString (n % 10) ++ "%"

/-- Python `str` of a criteria number (an integer in every built-in metric). -/
def qToStr (q : ℚ) : String :=
  if q.den = 1 then toString q.num else toString q.num ++ "/" ++ toString q.den

/-- The `criteria` parameter bag of a quality metric: one optional field per
dictionary key the analyzer reads. Blacklist entries keep the Python pattern
text alongside the compiled regex because issue messages print it. -/
structure Criteria where
  min_chars : Option ℚ := none
  min_sections : Option ℚ := none
  keywords : Option (List String) := none
  required_tags : Option (List String) := none
  required_values : Option (List String) := none
  patterns : Option (List RE) := none
  blacklist : Option (List (String × RE)) := none
  validation_type : Option String := none
  check_nesting : Option Bool := none
  min_content_ratio : Option ℚ := none
deriving Repr

/-- `QualityMetric` dataclass. -/
structure QualityMetric where
  name : String
  description : String
  weight : ℚ
  threshold : ℚ
  measurement_type : String
  criteria : Criteria
deriving Repr

/-- `AnalysisResult` dataclass (the timestamp field is dropped; the scores
dictionary is an insertion-ordered association list). -/
structure AnalysisResult where
  overall_score : ℚ
  metric_scores : List (String × ℚ)
  issues_found : List String
  suggestions : List String
  confidence_level : ℚ
  token_efficiency : Option (List (String × Nat)) := none
deriving Repr, DecidableEq

/-- Regex `<(\w+)[^>]*>` (open tag; the capture group is irrelevant to counting). -/
def openTagRE : RE :=
  reSeq [RE.ch '<', plusRE RE.wordc, RE.star (RE.notCh '>'), RE.ch '>']

/-- Regex `</(\w+)>` (close tag). -/
def closeTagRE : RE :=
  reSeq [RE.ch '<', RE.ch '/', plusRE RE.wordc, RE.ch '>']

/-- `_measure_binary`. -/
def measure_binary (response : String) (metric : QualityMetric) :
    ℚ × List String × List String :=
  if metric.criteria.validation_type = some "xml_json" then
    match parseXML response with
    | .ok _ => (1, [], [])
    | .error _ =>
      if jsonParses response then (1, [], [])
      else (0, ["Response is not valid XML or JSON"],
        ["Ensure response follows proper XML or JSON format"])
  else if metric.criteria.check_nesting = some true then
    if countMatches openTagRE response.data = countMatches closeTagRE response.data then
      (1, [], [])
    else
      (0, ["XML tags are not properly balanced"],
        ["Check that all XML tags are properly closed"])
  else (1/2, [], [])

/-- The four section-indicator regexes of `_measure_count`. -/
def section_indicators : List RE :=
  [reSeq [RE.ch '<', plusRE RE.wordc, RE.ch '>'],
   reSeq [plusRE RE.digit, RE.ch '.'],
   strRE "##",
   strRE "###"]

/-- `_measure_count`. -/
def measure_count (response : String) (metric : QualityMetric) :
    ℚ × List String × List String :=
  match metric.criteria.min_chars with
  | some threshold =>
    let char_count : ℚ := (stripChars response.data).length
    if char_count ≥ threshold then (1, [], [])
    else
      (char_count / threshold,
        ["Response too short: " ++ toString (stripChars response.data).length ++
          " chars (minimum " ++ qToStr threshold ++ ")"],
        ["Provide more detailed analysis (at least " ++ qToStr threshold ++
          " characters)"])
  | none =>
    match metric.criteria.min_sections with
    | some threshold =>
      let section_count : ℚ :=
        (section_indicators.map (fun p => countMatches p response.data)).sum
      if section_count ≥ threshold then (1, [], [])
      else
        (section_count / threshold,
          ["Insufficient structure: " ++
            toString ((section_indicators.map
              (fun p => countMatches p response.data)).sum) ++
            " sections (minimum " ++ qToStr threshold ++ ")"],
          ["Organize response with at least " ++ qToStr threshold ++
            " clear sections"])
    | none => (1/2, [], [])

/-- `_measure_ratio`. -/
def measure_ratio (response : String) (metric : QualityMetric) :
    ℚ × List String × List String :=
  match metric.criteria.min_content_ratio with
  | some threshold =>
    let elements := findElementPairs response.data
    if elements.isEmpty then (1/2, [], [])
    else
      let non_empty_count := (elements.filter
        (fun p => ¬(stripChars p.2.data).isEmpty)).length
      let total_count := elements.length
      let ratio : ℚ := if total_count > 0 then
        (non_empty_count : ℚ) / total_count else 0
      if ratio ≥ threshold then (1, [], [])
      else
        (ratio / threshold,
          ["Many empty elements: " ++ fmtPct ratio ++ " filled (minimum " ++
            fmtPct threshold ++ ")"],
          ["Ensure all XML elements contain meaningful content"])
  | none => (1/2, [], [])

/-- Whether a required tag's opening form appears literally in the text
(`<tag>` or `<tag ` for attributed tags, case-sensitive). -/
def tagAppears (response : String) (tag : String) : Bool :=
  substrB ('<' :: tag.data ++ ['>']) response.data ||
  substrB ('<' :: tag.data ++ [' ']) response.data

/-- `_measure_presence`. -/
def measure_presence (response : String) (metric : QualityMetric) :
    ℚ × List String × List String :=
  match metric.criteria.required_tags with
  | some required_tags =>
    let found_tags := required_tags.filter (tagAppears response)
    let missing_tags := required_tags.filter (fun t => ¬tagAppears response t)
    let score : ℚ := if ¬required_tags.isEmpty then
      (found_tags.length : ℚ) / required_tags.length else 1
    if ¬missing_tags.isEmpty then
      (score,
        ["Missing required elements: " ++ joinSep ", " missing_tags],
        ["Include all required XML elements: " ++ joinSep ", " missing_tags])
    else (score, [], [])
  | none =>
    match metric.criteria.required_values with
    | some required_values =>
      let found_values := required_values.filter
        (fun v => substrCI v.data response.data)
      if ¬found_values.isEmpty then (1, [], [])
      else
        (0, ["Missing required value from: " ++ joinSep ", " required_values],
          ["Include one of: " ++ joinSep ", " required_values])
    | none => (1/2, [], [])

/-- `_measure_pattern`. -/
def measure_pattern (response : String) (metric : QualityMetric) :
    ℚ × List String × List String :=
  match metric.criteria.patterns with
  | some patterns =>
    let matchCount := (patterns.filter (fun p => searchRE true p response.data)).length
    let score : ℚ := if ¬patterns.isEmpty then
      (matchCount : ℚ) / patterns.length else 1
    if score < metric.threshold then
      (min score 1,
        ["Pattern matching below threshold: " ++ fmtPct score],
        ["Include more specific references and details"])
    else (min score 1, [], [])
  | none =>
    match metric.criteria.blacklist with
    | some blacklist =>
      let violations := (blacklist.filter
        (fun p => searchRE true p.2 response.data)).map (·.1)
      if ¬violations.isEmpty then
        (0, ["Prohibited content found: " ++ joinSep ", " violations],
          ["Remove prohibited content to ensure compliance"])
      else (1, [], [])
    | none => (1/2, [], [])

/-- `_evaluate_metric`: dispatch on `measurement_type` with the fail-soft
neutral default. -/
def evaluate_metric (response : String) (metric : QualityMetric) :
    ℚ × List String × List String :=
  if metric.measurement_type = "binary" then measure_binary response metric
  else if metric.measurement_type = "count" then measure_count response metric
  else if metric.measurement_type = "ratio" then measure_ratio response metric
  else if metric.measurement_type = "presence" then measure_presence response metric
  else if metric.measurement_type = "pattern" then measure_pattern response metric
  else (1/2, ["Unknown measurement type: " ++ metric.measurement_type], [])

/-- `.*` with Python's default (non-DOTALL) dot. -/
def dotStarRE : RE := RE.star RE.anyc

/-- `_create_insurance_metrics`. -/
def create_insurance_metrics : List QualityMetric :=
  [{ name := "structured_format",
     description := "Response follows required XML structure",
     weight := 0.20, threshold := 0.8, measurement_type := "presence",
     criteria := { required_tags := some ["claim_analysis", "case_summary",
       "evidence_review", "fault_assessment"] } },
   { name := "evidence_citation",
     description := "Specific evidence is cited in reasoning",
     weight := 0.25, threshold := 0.7, measurement_type := "pattern",
     criteria := { patterns := some [reSeq [strRE "section ", plusRE RE.digit],
       strRE "form shows", strRE "checkbox", strRE "marked", strRE "indicated"] } },
   { name := "confidence_provided",
     description := "Confidence level is explicitly stated",
     weight := 0.15, threshold := 1.0, measurement_type := "pattern",
     criteria := { patterns := some [reSeq [repRange 1 3 RE.digit, RE.ch '%'],
       strRE "confidence"] } },
   { name := "fault_determination",
     description := "Clear fault determination is provided",
     weight := 0.20, threshold := 1.0, measurement_type := "presence",
     criteria := { required_values := some ["Vehicle A at fault",
       "Vehicle B at fault", "Shared fault", "Insufficient evidence"] } },
   { name := "limitation_acknowledgment",
     description := "Limitations and uncertainties are acknowledged",
     weight := 0.10, threshold := 0.5, measurement_type := "pattern",
     criteria := { patterns := some [strRE "limitation", strRE "uncertain",
       strRE "unclear",
       reSeq [strRE "require", dotStarRE, strRE "clarification"]] } },
   { name := "reasoning_depth",
     description := "Reasoning is detailed and comprehensive",
     weight := 0.10, threshold := 100, measurement_type := "count",
     criteria := { min_chars := some 200,
                   keywords := some ["because", "due to", "therefore", "analysis"] } }]

/-- `_create_legal_metrics`. -/
def create_legal_metrics : List QualityMetric :=
  [{ name := "structured_format",
     description := "Response follows required XML structure",
     weight := 0.15, threshold := 0.8, measurement_type := "presence",
     criteria := { required_tags := some ["legal_review", "document_summary",
       "risk_assessment", "recommendations"] } },
   { name := "risk_categorization",
     description := "Risks are properly categorized by severity",
     weight := 0.25, threshold := 0.8, measurement_type := "presence",
     criteria := { required_tags := some ["high_risk_issues",
       "medium_risk_issues", "low_risk_issues"] } },
   { name := "clause_citation",
     description := "Specific clauses and sections are referenced",
     weight := 0.20, threshold := 0.6, measurement_type := "pattern",
     criteria := { patterns := some [reSeq [strRE "section ", plusRE RE.digit],
       reSeq [strRE "clause ", plusRE RE.digit], strRE "paragraph",
       strRE "article"] } },
   { name := "attorney_review_decision",
     description := "Clear decision on attorney review requirement",
     weight := 0.15, threshold := 1.0, measurement_type := "pattern",
     criteria := { patterns := some [reSeq [strRE "attorney", dotStarRE, strRE "review", dotStarRE, strRE "true"],
        reSeq [strRE "attorney", dotStarRE, strRE "review", dotStarRE,
          strRE "false"]] } },
   { name := "compliance_assessment",
     description := "Regulatory compliance is addressed",
     weight := 0.15, threshold := 0.5, measurement_type := "pattern",
     criteria := { patterns := some [strRE "compliance", strRE "regulation",
       strRE "law", strRE "requirement"] } },
   { name := "actionable_recommendations",
     description := "Recommendations are specific and actionable",
     weight := 0.10, threshold := 0.7, measurement_type := "pattern",
     criteria := { patterns := some [strRE "recommend", strRE "suggest",
       strRE "should", strRE "modify", strRE "add", strRE "remove"] } }]

/-- `_create_medical_metrics`. -/
def create_medical_metrics : List QualityMetric :=
  [{ name := "hipaa_compliance",
     description := "No PHI (Protected Health Information) present",
     weight := 0.30, threshold := 1.0, measurement_type := "pattern",
     criteria := { blacklist := some [("social security", strRE "social security"),
        ("\\d\x7b3\x7d-\\d\x7b2\x7d-\\d\x7b4\x7d",
          reSeq [repExact 3 RE.digit, RE.ch '-', repExact 2 RE.digit,
            RE.ch '-', repExact 4 RE.digit]),
        ("\\(\\d\x7b3\x7d\\) \\d\x7b3\x7d-\\d\x7b4\x7d",
          reSeq [RE.ch '(', repExact 3 RE.digit, RE.ch ')', RE.ch ' ',
            repExact 3 RE.digit, RE.ch '-', repExact 4 RE.digit]),
        ("\\b\\w+@\\w+\\.\\w+\\b",
          reSeq [RE.wordB, plusRE RE.wordc, RE.ch '@', plusRE RE.wordc,
            RE.ch '.', plusRE RE.wordc, RE.wordB])] } },
   { name := "structured_format",
     description := "Response follows required XML structure",
     weight := 0.15, threshold := 0.8, measurement_type := "presence",
     criteria := { required_tags := some ["medical_analysis",
       "clinical_information", "documentation_quality"] } },
   { name := "clinical_focus",
     description := "Analysis focuses on documentation and administrative aspects",
     weight := 0.20, threshold := 0.7, measurement_type := "pattern",
     criteria := { patterns := some [strRE "documentation", strRE "record",
       strRE "administrative", strRE "quality", strRE "compliance"] } },
   { name := "no_medical_advice",
     description := "Does not provide medical advice or diagnoses",
     weight := 0.20, threshold := 1.0, measurement_type := "pattern",
     criteria := { blacklist := some [("I recommend.*treatment",
          reSeq [strRE "I recommend", dotStarRE, strRE "treatment"]),
        ("diagnosis.*is", reSeq [strRE "diagnosis", dotStarRE, strRE "is"]),
        ("patient should.*medication",
          reSeq [strRE "patient should", dotStarRE, strRE "medication"])] } },
   { name := "care_coordination",
     description := "Addresses care coordination and communication",
     weight := 0.10, threshold := 0.5, measurement_type := "pattern",
     criteria := { patterns := some [strRE "coordination", strRE "communication",
       reSeq [strRE "follow", dotStarRE, strRE "up"], strRE "provider"] } },
   { name := "clinical_review_decision",
     description := "Clear decision on clinical review requirement",
     weight := 0.05, threshold := 1.0, measurement_type := "pattern",
     criteria := { patterns := some [reSeq [strRE "clinical", dotStarRE, strRE "review", dotStarRE, strRE "true"],
        reSeq [strRE "clinical", dotStarRE, strRE "review", dotStarRE,
          strRE "false"]] } }]

/-- The pattern list of the general `clarity` metric. -/
def clarityPatterns : List RE :=
  [reSeq [RE.ch '<', plusRE RE.wordc, RE.ch '>'],
   reSeq [plusRE RE.digit, RE.ch '.'], strRE "â€¢", strRE "-",
   strRE "First", strRE "Second", strRE "Finally"]

/-- The pattern list of the general `confidence_calibration` metric. -/
def calibrationPatterns : List RE :=
  [reSeq [repRange 1 3 RE.digit, RE.ch '%'],
   strRE "confident", strRE "uncertain", strRE "likely"]

/-- The pattern list of the general `evidence_based` metric. -/
def evidencePatterns : List RE :=
  [strRE "based on", strRE "evidence", strRE "indicates", strRE "shows",
   strRE "according to"]

/-- The blacklist of the general `professional_tone` metric. -/
def toneBlacklist : List (String × RE) :=
  [("awesome", strRE "awesome"), ("totally", strRE "totally"),
   ("definitely", strRE "definitely"), ("obviously", strRE "obviously")]

/-- The pattern list of the general `limitation_awareness` metric. -/
def limitationPatterns : List RE :=
  [strRE "limitation", strRE "uncertain", strRE "may", strRE "might",
   strRE "could"]

/-- The `clarity` metric of the general framework. -/
def clarity_metric : QualityMetric :=
  { name := "clarity",
    description := "Response is clear and well-organized",
    weight := 0.20, threshold := 0.7, measurement_type := "pattern",
    criteria := { patterns := some clarityPatterns } }

/-- The `completeness` metric of the general framework. -/
def completeness_metric : QualityMetric :=
  { name := "completeness",
    description := "All requested elements are addressed",
    weight := 0.25, threshold := 0.8, measurement_type := "count",
    criteria := { min_sections := some 3,
                  keywords := some ["analysis", "assessment", "recommendation"] } }

/-- The `confidence_calibration` metric of the general framework. -/
def confidence_calibration_metric : QualityMetric :=
  { name := "confidence_calibration",
    description := "Confidence levels are appropriately calibrated",
    weight := 0.15, threshold := 0.5, measurement_type := "pattern",
    criteria := { patterns := some calibrationPatterns } }

/-- The `evidence_based` metric of the general framework. -/
def evidence_based_metric : QualityMetric :=
  { name := "evidence_based",
    description := "Conclusions are supported by evidence",
    weight := 0.20, threshold := 0.6, measurement_type := "pattern",
    criteria := { patterns := some evidencePatterns } }

/-- The `professional_tone` metric of the general framework. -/
def professional_tone_metric : QualityMetric :=
  { name := "professional_tone",
    description := "Maintains appropriate professional tone",
    weight := 0.10, threshold := 0.8, measurement_type := "pattern",
    criteria := { blacklist := some toneBlacklist } }

/-- The `limitation_awareness` metric of the general framework. -/
def limitation_awareness_metric : QualityMetric :=
  { name := "limitation_awareness",
    description := "Acknowledges limitations and uncertainties",
    weight := 0.10, threshold := 0.3, measurement_type := "pattern",
    criteria := { patterns := some limitationPatterns } }

/-- `_create_general_metrics`. -/
def create_general_metrics : List QualityMetric :=
  [clarity_metric, completeness_metric, confidence_calibration_metric,
   evidence_based_metric, professional_tone_metric,
   limitation_awareness_metric]

/-- `_create_structured_metrics`. -/
def create_structured_metrics : List QualityMetric :=
  [{ name := "valid_structure",
     description := "Output is valid XML or JSON",
     weight := 0.40, threshold := 1.0, measurement_type := "binary",
     criteria := { validation_type := some "xml_json" } },
   { name := "required_elements",
     description := "All required elements are present",
     weight := 0.30, threshold := 0.9, measurement_type := "count",
     criteria := { required_tags := some [] } },
   { name := "proper_nesting",
     description := "Elements are properly nested and organized",
     weight := 0.15, threshold := 0.8, measurement_type := "binary",
     criteria := { check_nesting := some true } },
   { name := "content_completeness",
     description := "Elements contain meaningful content",
     weight := 0.15, threshold := 0.7, measurement_type := "ratio",
     criteria := { min_content_ratio := some 0.8 } }]

/-- `_load_quality_frameworks`: the registry of built-in metric sets. -/
def quality_frameworks : List (String × List QualityMetric) :=
  [("insurance_claims", create_insurance_metrics),
   ("legal_review", create_legal_metrics),
   ("medical_analysis", create_medical_metrics),
   ("general_analysis", create_general_metrics),
   ("structured_output", create_structured_metrics)]

/-- Python dictionary insertion: replace the value at an existing key,
else append. -/
def dictInsert (k : String) (v : ℚ) : List (String × ℚ) → List (String × ℚ)
  | [] => [(k, v)]
  | (k2, v2) :: rest =>
    if k2 = k then (k, v) :: rest else (k2, v2) :: dictInsert k v rest

/-- Dictionary lookup (keys are unique by construction). -/
def lookupScore (k : String) (d : List (String × ℚ)) : ℚ :=
  ((d.find? (fun p => p.1 = k)).map (·.2)).getD 0

/-- `_calculate_confidence`. -/
def calculate_confidence (metric_scores : List (String × ℚ))
    (metrics : List QualityMetric) : ℚ :=
  let high_weight_metrics := metrics.filter (fun m => m.weight ≥ 0.2)
  let high_weight_scores := high_weight_metrics.map
    (fun m => lookupScore m.name metric_scores)
  if high_weight_scores.isEmpty then
    (metric_scores.map (·.2)).sum / metric_scores.length
  else
    high_weight_scores.sum / high_weight_scores.length

/-- The metric list `analyze_response` evaluates: registry lookup with
silent fallback to `general_analysis`, then the `structured_output`
customization when a non-empty `expected_elements` list is supplied (the
source tests `expected_elements and framework == 'structured_output'`;
both conjuncts are pure, so the order of the conjunction is immaterial). -/
def resolvedMetrics (framework : String)
    (expected_elements : Option (List String)) : List QualityMetric :=
  let fw := if (quality_frameworks.find? (fun p => p.1 = framework)).isSome
    then framework else "general_analysis"
  let metrics := (((quality_frameworks.find? (fun p => p.1 = fw)).map
    (·.2)).getD [])
  match expected_elements with
  | some tags =>
    if fw = "structured_output" ∧ ¬tags.isEmpty then
      metrics.map (fun m =>
        if m.name = "required_elements" then
          { m with criteria := { m.criteria with required_tags := some tags } }
        else m)
    else metrics
  | none => metrics

/-- One step of the metric-evaluation loop of `analyze_response`:
record the metric's score and accumulate its issues and suggestions. -/
def evalStep (response : String)
    (acc : List (String × ℚ) × List String × List String)
    (m : QualityMetric) : List (String × ℚ) × List String × List String :=
  let r := evaluate_metric response m
  (dictInsert m.name r.1 acc.1, acc.2.1 ++ r.2.1, acc.2.2 ++ r.2.2)

/-- `analyze_response`. -/
def analyze_response (response : String)
    (framework : String := "general_analysis")
    (expected_elements : Option (List String) := none)
    (token_usage : Option (List (String × Nat)) := none) : AnalysisResult :=
  let metrics := resolvedMetrics framework expected_elements
  let folded := metrics.foldl (evalStep response) ([], [], [])
  let metric_scores := folded.1
  let overall_score :=
    (metrics.map (fun m => lookupScore m.name metric_scores * m.weight)).sum * 100
  { overall_score := overall_score,
    metric_scores := metric_scores,
    issues_found := folded.2.1,
    suggestions := folded.2.2,
    confidence_level := calculate_confidence metric_scores metrics,
    token_efficiency := token_usage }

/-! ## XML validator (`resources/tools/xml-validator.py`) -/

/-- The dictionary form of a validation rule's criteria. -/
structure RCParams where
  pattern : Option RE := none
  min_length : Option Nat := none
  blacklist : Option (List String) := none
deriving Repr

/-- A rule's criteria: either a string sentinel or a parameter dictionary. -/
inductive RuleCriteria where
  | str : String → RuleCriteria
  | dict : RCParams → RuleCriteria
deriving Repr

/-- `ValidationRule` dataclass. -/
structure ValidationRule where
  element_path : String
  rule_type : String
  criteria : RuleCriteria
  severity : String := "error"
  description : String := ""
deriving Repr

/-- `ValidationResult` dataclass (timestamp dropped). -/
structure ValidationResult where
  is_valid : Bool
  errors : List String
  warnings : List String
  info : List String
  score : ℚ
  element_count : Nat
deriving Repr, DecidableEq

/-- `_find_elements`: `*` alone is the whole pre-order traversal; otherwise
each `/`-separated segment steps from the current frontier to children,
matching a literal tag or expanding `*` to all children. -/
def find_elements (root : XMLElem) (path : String) : List XMLElem :=
  if path = "*" then iterElems root
  else
    (splitOnCh '/' path.data []).foldl
      (fun current part =>
        if part = "" then current
        else current.flatMap (fun e =>
          if part = "*" then e.children
          else e.children.filter (fun c => c.tag = part)))
      [root]

/-- Python truthiness of `elem.text`: present and non-empty. -/
def textTruthy : Option String → Bool
  | some t => ¬t.data.isEmpty
  | none => false

/-- `_check_required`. -/
def check_required (root : XMLElem) (rule : ValidationRule) : List String :=
  match rule.criteria with
  | .str "root_element" =>
    if root.tag ≠ rule.element_path then
      ["Root element should be '" ++ rule.element_path ++ "', found '" ++
        root.tag ++ "'"]
    else []
  | .str "non_empty" =>
    let elements := find_elements root rule.element_path
    if elements.isEmpty then
      ["Required element '" ++ rule.element_path ++ "' is missing"]
    else
      elements.flatMap (fun elem =>
        if ¬textTruthy elem.text ∨ (stripChars (elem.text.getD "").data).isEmpty
        then ["Required element '" ++ rule.element_path ++ "' is empty"]
        else [])
  | .str "present" =>
    if (find_elements root rule.element_path).isEmpty then
      ["Required element '" ++ rule.element_path ++ "' is missing"]
    else []
  | _ => []

/-- `_check_format`: `re.match` on the element's stripped text — anchored
at the start only. -/
def check_format (root : XMLElem) (rule : ValidationRule) : List String :=
  match rule.criteria with
  | .str _ => []
  | .dict p =>
    match p.pattern with
    | some pat =>
      (find_elements root rule.element_path).flatMap (fun elem =>
        if textTruthy elem.text ∧
            ¬matchAtStart pat (stripChars (elem.text.getD "").data) then
          ["Element '" ++ rule.element_path ++ "' format invalid: '" ++
            ⟨stripChars (elem.text.getD "").data⟩ ++ "'"]
        else [])
    | none => []

/-- `_check_content`: pattern search on raw text, minimum stripped length,
and a case-insensitive blacklist scan over the whole input. -/
def check_content (root : XMLElem) (rule : ValidationRule)
    (xml_content : String) : List String :=
  match rule.criteria with
  | .str _ => []
  | .dict p =>
    let patternViolations :=
      match p.pattern with
      | some pat =>
        (find_elements root rule.element_path).flatMap (fun elem =>
          if textTruthy elem.text ∧
              ¬searchRE false pat (elem.text.getD "").data then
            ["Element '" ++ rule.element_path ++
              "' content doesn't match pattern"]
          else [])
      | none => []
    let lengthViolations :=
      match p.min_length with
      | some min_length =>
        (find_elements root rule.element_path).flatMap (fun elem =>
          if ¬textTruthy elem.text ∨
              (stripChars (elem.text.getD "").data).length < min_length then
            ["Element '" ++ rule.element_path ++
              "' content too short (minimum " ++ toString min_length ++
              " characters)"]
          else [])
      | none => []
    let blacklistViolations :=
      match p.blacklist with
      | some blacklist =>
        blacklist.flatMap (fun term =>
          if substrCI term.data xml_content.data then
            ["Prohibited content found: '" ++ term ++ "'"]
          else [])
      | none => []
    patternViolations ++ lengthViolations ++ blacklistViolations

/-- `_check_attribute`: reserved, currently a no-op. -/
def check_attribute (_root : XMLElem) (_rule : ValidationRule) : List String :=
  []

/-- `_apply_rule`: dispatch on `rule_type`; unknown types yield nothing. -/
def apply_rule (root : XMLElem) (rule : ValidationRule)
    (xml_content : String) : List String :=
  if rule.rule_type = "required" then check_required root rule
  else if rule.rule_type = "format" then check_format root rule
  else if rule.rule_type = "content" then check_content root rule xml_content
  else if rule.rule_type = "attribute" then check_attribute root rule
  else []

/-- `_create_insurance_schema`. -/
def create_insurance_schema : List ValidationRule :=
  [{ element_path := "claim_analysis", rule_type := "required",
     criteria := .str "root_element",
     description := "Root element must be claim_analysis" },
   { element_path := "claim_analysis/case_summary", rule_type := "required",
     criteria := .str "non_empty",
     description := "Case summary is required and must not be empty" },
   { element_path := "claim_analysis/evidence_review", rule_type := "required",
     criteria := .str "non_empty",
     description := "Evidence review section is required" },
   { element_path := "claim_analysis/evidence_review/form_analysis",
     rule_type := "required", criteria := .str "non_empty",
     description := "Form analysis is required within evidence review" },
   { element_path := "claim_analysis/fault_assessment", rule_type := "required",
     criteria := .str "non_empty",
     description := "Fault assessment section is required" },
   { element_path := "claim_analysis/fault_assessment/determination",
     rule_type := "content",
     criteria := .dict { pattern := some (RE.alt (strRE "Vehicle A at fault")
       (RE.alt (strRE "Vehicle B at fault") (RE.alt (strRE "Shared fault")
         (strRE "Insufficient evidence")))) },
     description := "Determination must be one of the valid options" },
   { element_path := "claim_analysis/fault_assessment/confidence_level",
     rule_type := "format",
     criteria := .dict { pattern := some (reSeq [RE.bol,
       repRange 1 3 RE.digit, optRE (RE.ch '%'), RE.eol]) },
     description := "Confidence level must be a percentage (0-100)" },
   { element_path := "claim_analysis/fault_assessment/reasoning",
     rule_type := "content", criteria := .dict { min_length := some 50 },
     description := "Reasoning must be detailed (at least 50 characters)" },
   { element_path := "claim_analysis/recommendations", rule_type := "required",
     criteria := .str "non_empty",
     description := "Recommendations section is required" },
   { element_path := "claim_analysis/recommendations/human_review_required",
     rule_type := "content",
     criteria := .dict { pattern := some (reSeq [RE.bol,
       RE.alt (strRE "true") (strRE "false"), RE.eol]) },
     description := "Human review required must be true or false" }]

/-- `_create_legal_schema`. -/
def create_legal_schema : List ValidationRule :=
  [{ element_path := "legal_review", rule_type := "required",
     criteria := .str "root_element",
     description := "Root element must be legal_review" },
   { element_path := "legal_review/document_summary", rule_type := "required",
     criteria := .str "non_empty",
     description := "Document summary section is required" },
   { element_path := "legal_review/document_summary/document_type",
     rule_type := "required", criteria := .str "non_empty",
     description := "Document type must be specified" },
   { element_path := "legal_review/risk_assessment", rule_type := "required",
     criteria := .str "non_empty",
     description := "Risk assessment section is required" },
   { element_path := "legal_review/risk_assessment/high_risk_issues",
     rule_type := "required", criteria := .str "present",
     description := "High risk issues section must be present (can be empty)" },
   { element_path := "legal_review/compliance_review", rule_type := "required",
     criteria := .str "non_empty",
     description := "Compliance review section is required" },
   { element_path := "legal_review/clause_analysis", rule_type := "required",
     criteria := .str "non_empty",
     description := "Clause analysis section is required" },
   { element_path := "legal_review/recommendations/attorney_review_required",
     rule_type := "content",
     criteria := .dict { pattern := some (reSeq [RE.bol,
       RE.alt (strRE "true") (strRE "false"), RE.eol]) },
     description := "Attorney review required must be true or false" },
   { element_path := "legal_review/review_confidence/overall_confidence",
     rule_type := "format",
     criteria := .dict { pattern := some (reSeq [RE.bol,
       repRange 1 3 RE.digit, optRE (RE.ch '%'), RE.eol]) },
     description := "Overall confidence must be a percentage" }]

/-- `_create_medical_schema`. -/
def create_medical_schema : List ValidationRule :=
  [{ element_path := "medical_analysis", rule_type := "required",
     criteria := .str "root_element",
     description := "Root element must be medical_analysis" },
   { element_path := "medical_analysis/document_summary",
     rule_type := "required", criteria := .str "non_empty",
     description := "Document summary section is required" },
   { element_path := "medical_analysis/clinical_information",
     rule_type := "required", criteria := .str "non_empty",
     description := "Clinical information section is required" },
   { element_path := "medical_analysis/treatment_assessment",
     rule_type := "required", criteria := .str "non_empty",
     description := "Treatment assessment section is required" },
   { element_path := "medical_analysis/documentation_quality",
     rule_type := "required", criteria := .str "non_empty",
     description := "Documentation quality section is required" },
   { element_path := "medical_analysis/recommendations/clinical_review_required",
     rule_type := "content",
     criteria := .dict { pattern := some (reSeq [RE.bol,
       RE.alt (strRE "true") (strRE "false"), RE.eol]) },
     description := "Clinical review required must be true or false" },
   { element_path := "medical_analysis/analysis_confidence/overall_confidence",
     rule_type := "format",
     criteria := .dict { pattern := some (reSeq [RE.bol,
       repRange 1 3 RE.digit, optRE (RE.ch '%'), RE.eol]) },
     description := "Overall confidence must be a percentage" },
   { element_path := "medical_analysis", rule_type := "content",
     criteria := .dict { blacklist := some ["social security", "ssn",
       "phone number", "email", "address"] },
     severity := "error",
     description := "Must not contain PHI (Protected Health Information)" }]

/-- `_create_general_schema`. -/
def create_general_schema : List ValidationRule :=
  [{ element_path := "*", rule_type := "format",
     criteria := .str "well_formed_xml",
     description := "Must be well-formed XML" },
   { element_path := "*/confidence", rule_type := "format",
     criteria := .dict { pattern := some (reSeq [RE.bol,
       repRange 1 3 RE.digit, optRE (RE.ch '%'), RE.eol]) },
     severity := "warning",
     description := "Confidence values should be percentages" }]

/-- `_load_builtin_schemas`. -/
def builtin_schemas : List (String × List ValidationRule) :=
  [("insurance_claims", create_insurance_schema),
   ("legal_review", create_legal_schema),
   ("medical_analysis", create_medical_schema),
   ("general_analysis", create_general_schema)]

/-- The schema-name resolution step of `validate_xml`: built-ins first,
then the custom registry, else the general fallback with its warning. -/
def resolveSchema (custom : List (String × List ValidationRule))
    (schema_name : String) : List ValidationRule × List String :=
  match builtin_schemas.find? (fun p => p.1 = schema_name) with
  | some p => (p.2, [])
  | none =>
    match custom.find? (fun p => p.1 = schema_name) with
    | some p => (p.2, [])
    | none =>
      (create_general_schema,
        ["Schema '" ++ schema_name ++ "' not found, using general validation"])

/-- One step of the rule-application loop of `validate_xml`: route the
rule's violations to the errors, warnings or info channel by severity. -/
def vStep (root : XMLElem) (xml_content : String)
    (acc : List String × List String × List String)
    (rule : ValidationRule) : List String × List String × List String :=
  let violations := apply_rule root rule xml_content
  if rule.severity = "error" then (acc.1 ++ violations, acc.2.1, acc.2.2)
  else if rule.severity = "warning" then
    (acc.1, acc.2.1 ++ violations, acc.2.2)
  else (acc.1, acc.2.1, acc.2.2 ++ violations)

/-- Modelled from the specification's wording for C5 (for comparison with
`check_format`): a fully-anchored match of the rule's regex — some match
starting at the first character ends exactly at the last. -/
def fullMatchAnchored (pat : RE) (s : List Char) : Bool :=
  (matchEnds s false (s.length + 1) pat 0).contains s.length

/-- `validate_xml`, parameterized by the instance's custom-schema registry. -/
def validate_xml (custom : List (String × List ValidationRule))
    (xml_content : String)
    (schema_name : String := "general_analysis") : ValidationResult :=
  match parseXML xml_content with
  | .error e =>
    { is_valid := false, errors := ["Invalid XML: " ++ e], warnings := [],
      info := [], score := 0, element_count := 0 }
  | .ok root =>
    let rw := resolveSchema custom schema_name
    let rules := rw.1
    let element_count := (iterElems root).length
    let folded := rules.foldl (vStep root xml_content) ([], rw.2, [])
    let errors := folded.1
    let total_rules := (rules.filter (fun r => r.severity = "error")).length
    let score : ℚ := if total_rules > 0 then
        max 0 (((total_rules : ℚ) - errors.length) / total_rules * 100)
      else 100
    { is_valid := errors.isEmpty, errors := errors, warnings := folded.2.1,
      info := folded.2.2, score := score, element_count := element_count }

/-- A sample response on which every general-framework metric clears its
threshold, so the analysis emits no issue and no suggestion. -/
def sampleGeneralText : String :=
  "<a> 1. - First Second ## 90% likely uncertain may based on evidence shows"

/-! ## IEEE binary64 model of the aggregation arithmetic

The scorer's numbers are Python floats. The embedding above uses exact
rationals, which agrees with the program on every per-metric score and
comparison the claims touch, but not on the `overall_score` summation,
whose rounding is observable: the `legal_review` weights do not sum to 1
in binary64. The following models that summation faithfully: a rational is
rounded to 53 significant bits with ties to even, the way every Python
float literal and arithmetic result is. (Subnormals and overflow are
outside the range exercised.) -/

/-- Scale a positive rational by powers of two into the binary64
significand range `[2^52, 2^53)`, returning the scaled value and the
exponent: `q = p.1 * 2 ^ p.2`. -/
def scaleTo53 (fuel : Nat) (q : ℚ) : ℚ × ℤ :=
  if fuel = 0 then (q, 0)
  else if q < 2 ^ 52 then
    let p := scaleTo53 (fuel - 1) (q * 2)
    (p.1, p.2 - 1)
  else if 2 ^ 53 ≤ q then
    let p := scaleTo53 (fuel - 1) (q / 2)
    (p.1, p.2 + 1)
  else (q, 0)
termination_by fuel
decreasing_by all_goals omega

/-- Round to the nearest integer, ties to even. -/
def roundHalfEven (q : ℚ) : ℤ :=
  let n := ⌊q⌋
  if q < (n : ℚ) + 1/2 then n
  else if (n : ℚ) + 1/2 < q then n + 1
  else if n % 2 = 0 then n else n + 1

/-- Round the scaled significand and reapply the exponent. -/
def roundSig (p : ℚ × ℤ) : ℚ :=
  (roundHalfEven p.1 : ℚ) * (2 : ℚ) ^ p.2

/-- Round a nonnegative rational to the nearest binary64 value (the value
of the Python float it becomes). -/
def fl64 (q : ℚ) : ℚ :=
  if q = 0 then 0 else roundSig (scaleTo53 1200 q)

/-- Shift the exponent of a scaled pair (used to state the unfolding
equations of `scaleTo53`). -/
def shiftE (p : ℚ × ℤ) (d : ℤ) : ℚ × ℤ := (p.1, p.2 + d)

/-- The program's `sum(score * weight for ...) * 100` over doubles:
left-to-right rounded additions starting from zero, then one rounded
multiplication by 100, applied to the already-rounded products. -/
def floatOverallScore (products : List ℚ) : ℚ :=
  fl64 ((products.foldl (fun acc x => fl64 (acc + x)) 0) * 100)

/-- A response scoring `1.0` on all six `legal_review` metrics: all seven
required tags appear literally, and every pattern of the four pattern
metrics matches (`recommend` inside `<recommendations>`). -/
def legalPerfectText : String :=
  "section 1 clause 2 paragraph article " ++
  "compliance regulation law requirement " ++
  "suggest should modify add remove " ++
  "<legal_review><document_summary><risk_assessment><recommendations>" ++
  "<high_risk_issues><medium_risk_issues><low_risk_issues>" ++
  " attorney review true false"

/-! ## Helper lemmas -/

theorem div_bounds_of_not_le {c t : ℚ} (hc : 0 ≤ c) (h : ¬t ≤ c) :
    0 ≤ c / t ∧ c / t ≤ 1 := by
  have hct : c < t := not_le.mp h
  have ht : 0 < t := lt_of_le_of_lt hc hct
  exact ⟨div_nonneg hc ht.le, by rw [div_le_one ht]; exact hct.le⟩

theorem div_bounds_of_le {c t : ℚ} (hc : 0 ≤ c) (hct : c ≤ t) (ht : 0 < t) :
    0 ≤ c / t ∧ c / t ≤ 1 := by
  exact ⟨div_nonneg hc ht.le, by rw [div_le_one ht]; exact hct⟩

theorem measure_binary_bounds (response : String) (m : QualityMetric) :
    0 ≤ (measure_binary response m).1 ∧ (measure_binary response m).1 ≤ 1 := by
  unfold measure_binary
  repeat' split
  all_goals norm_num

theorem measure_count_bounds (response : String) (m : QualityMetric) :
    0 ≤ (measure_count response m).1 ∧ (measure_count response m).1 ≤ 1 := by
  unfold measure_count
  cases hmc : m.criteria.min_chars with
  | some t =>
    simp only
    split_ifs with h
    · norm_num
    · exact div_bounds_of_not_le (by positivity) h
  | none =>
    cases hms : m.criteria.min_sections with
    | some t =>
      simp only
      split_ifs with h
      · norm_num
      · exact div_bounds_of_not_le (by positivity) h
    | none => norm_num

theorem measure_ratio_bounds (response : String) (m : QualityMetric) :
    0 ≤ (measure_ratio response m).1 ∧ (measure_ratio response m).1 ≤ 1 := by
  unfold measure_ratio
  cases hmc : m.criteria.min_content_ratio with
  | some t =>
    simp only
    by_cases hemp : (findElementPairs response.data).isEmpty
    · rw [if_pos hemp]; norm_num
    · rw [if_neg hemp]
      set elements := findElementPairs response.data with he
      set ne0 := (elements.filter (fun p => ¬(stripChars p.2.data).isEmpty)).length
        with hne
      set ratio : ℚ := (if elements.length > 0 then
        ((ne0 : ℚ) / elements.length) else 0) with hr
      have hratio : 0 ≤ ratio ∧ ratio ≤ 1 := by
        rw [hr]; split_ifs with hl
        · exact div_bounds_of_le (by positivity)
            (by exact_mod_cast List.length_filter_le _ _) (by exact_mod_cast hl)
        · norm_num
      by_cases hge : ratio ≥ t
      · rw [if_pos hge]; norm_num
      · rw [if_neg hge]
        exact div_bounds_of_not_le hratio.1 hge
  | none => norm_num

theorem measure_presence_bounds (response : String) (m : QualityMetric) :
    0 ≤ (measure_presence response m).1 ∧ (measure_presence response m).1 ≤ 1 := by
  unfold measure_presence
  cases hrt : m.criteria.required_tags with
  | some tags =>
    simp only
    set score : ℚ := (if ¬tags.isEmpty then
      (((tags.filter (tagAppears response)).length : ℚ) / tags.length) else 1)
      with hs
    have hsb : 0 ≤ score ∧ score ≤ 1 := by
      rw [hs]
      by_cases hne : tags = []
      · subst hne; simp
      · rw [if_pos (by simp [List.isEmpty_iff, hne])]
        exact div_bounds_of_le (by positivity)
          (by exact_mod_cast List.length_filter_le _ _)
          (by exact_mod_cast List.length_pos.mpr hne)
    split_ifs <;> exact hsb
  | none =>
    cases hrv : m.criteria.required_values with
    | some vals =>
      simp only
      split_ifs <;> norm_num
    | none => norm_num

theorem measure_pattern_bounds (response : String) (m : QualityMetric) :
    0 ≤ (measure_pattern response m).1 ∧ (measure_pattern response m).1 ≤ 1 := by
  unfold measure_pattern
  cases hp : m.criteria.patterns with
  | some patterns =>
    simp only
    set score : ℚ := (if ¬patterns.isEmpty then
      (((patterns.filter (fun p => searchRE true p response.data)).length : ℚ) /
        patterns.length) else 1) with hs
    have hsp : 0 ≤ score := by
      rw [hs]
      by_cases hne : patterns = []
      · subst hne; simp
      · rw [if_pos (by simp [List.isEmpty_iff, hne])]
        positivity
    constructor
    · split_ifs <;> exact le_min hsp (by norm_num)
    · split_ifs <;> exact min_le_right _ _
  | none =>
    cases hb : m.criteria.blacklist with
    | some bl =>
      simp only
      split_ifs <;> norm_num
    | none => norm_num

theorem evaluate_metric_bounds (response : String) (m : QualityMetric) :
    0 ≤ (evaluate_metric response m).1 ∧ (evaluate_metric response m).1 ≤ 1 := by
  unfold evaluate_metric
  split_ifs
  · exact measure_binary_bounds response m
  · exact measure_count_bounds response m
  · exact measure_ratio_bounds response m
  · exact measure_presence_bounds response m
  · exact measure_pattern_bounds response m
  · norm_num

/-! ## Claim theorems -/

/-- C2: any input on which XML parsing fails makes `validate_xml` return
(never raise) a result with `is_valid = false`, exactly one error message,
`score = 0` and `element_count = 0`, independent of the schema and custom
registry — so no rule is applied to the malformed input. -/
theorem validate_xml_parse_failure (custom : List (String × List ValidationRule))
    (xml schema_name e : String)
    (h : parseXML xml = .error e) :
    validate_xml custom xml schema_name =
      { is_valid := false, errors := ["Invalid XML: " ++ e], warnings := [],
        info := [], score := 0, element_count := 0 } := by
  unfold validate_xml
  rw [h]

/-- Witness for C2 at the spec's example input. -/
theorem validate_xml_parse_failure_witness :
    validate_xml [] "<a><b></a>" "insurance_claims" =
      { is_valid := false, errors := ["Invalid XML: mismatched tag"],
        warnings := [], info := [], score := 0, element_count := 0 } := by
  have h := validate_xml_parse_failure [] "<a><b></a>" "insurance_claims"
    "mismatched tag" (by rfl)
  rw [h]
  rfl

/-- C7: a metric whose `measurement_type` is none of the five known kinds
evaluates (totally, without raising) to the neutral score `1/2` together
with a single issue naming the unknown type. -/
theorem unknown_measurement_type_spec (response : String) (metric : QualityMetric)
    (h1 : metric.measurement_type ≠ "binary")
    (h2 : metric.measurement_type ≠ "count")
    (h3 : metric.measurement_type ≠ "ratio")
    (h4 : metric.measurement_type ≠ "presence")
    (h5 : metric.measurement_type ≠ "pattern") :
    evaluate_metric response metric =
      (1/2, ["Unknown measurement type: " ++ metric.measurement_type], []) := by
  unfold evaluate_metric
  rw [if_neg h1, if_neg h2, if_neg h3, if_neg h4, if_neg h5]

/-- Witness for C7 at a concrete unknown measurement type. -/
theorem unknown_measurement_type_spec_witness :
    evaluate_metric "any response"
      { name := "m", description := "", weight := 1, threshold := 1,
        measurement_type := "semantic", criteria := {} } =
      (1/2, ["Unknown measurement type: semantic"], []) := by
  have h := unknown_measurement_type_spec "any response"
    { name := "m", description := "", weight := 1, threshold := 1,
      measurement_type := "semantic", criteria := {} }
    (by decide) (by decide) (by decide) (by decide) (by decide)
  rw [h]
  rfl

/-- C8: a count metric with a positive `min_chars` threshold scores
`min(1, charCount/threshold)` where `charCount` is the length of the
stripped response, and emits an issue exactly when the count is below the
threshold. -/
theorem count_min_chars_spec (response : String) (metric : QualityMetric) (t : ℚ)
    (hmt : metric.measurement_type = "count")
    (hmc : metric.criteria.min_chars = some t) (ht : 0 < t) :
    (evaluate_metric response metric).1 =
      min 1 (((stripChars response.data).length : ℚ) / t) ∧
    ((evaluate_metric response metric).2.1 ≠ [] ↔
      ((stripChars response.data).length : ℚ) < t) := by
  have hd : evaluate_metric response metric = measure_count response metric := by
    unfold evaluate_metric
    rw [if_neg (by rw [hmt]; decide), if_pos hmt]
  rw [hd]
  unfold measure_count
  rw [hmc]
  simp only
  set c : ℚ := ((stripChars response.data).length : ℚ) with hc
  by_cases h : c ≥ t
  · rw [if_pos h]
    constructor
    · have h1 : (1:ℚ) ≤ c / t := (one_le_div ht).mpr h
      simp [min_eq_left h1]
    · simp [not_lt.mpr h]
  · rw [if_neg h]
    constructor
    · have h1 : c / t ≤ 1 := by rw [div_le_one ht]; exact (not_le.mp h).le
      simp [min_eq_right h1]
    · simp [not_le.mp h]

/-- Witness for C8: a 50-character response against `min_chars = 200`
scores exactly `1/4`. -/
theorem count_min_chars_spec_witness :
    (0:ℚ) < 200 ∧
    (evaluate_metric "AAAAAAAAAAAAAAAAAAAAAAAAAAAAAAAAAAAAAAAAAAAAAAAAAA"
      { name := "reasoning_depth", description := "", weight := 1,
        threshold := 100, measurement_type := "count",
        criteria := { min_chars := some 200 } }).1 = 1/4 := by
  constructor
  · norm_num
  · have h := count_min_chars_spec
      "AAAAAAAAAAAAAAAAAAAAAAAAAAAAAAAAAAAAAAAAAAAAAAAAAA"
      { name := "reasoning_depth", description := "", weight := 1,
        threshold := 100, measurement_type := "count",
        criteria := { min_chars := some 200 } }
      200 rfl rfl (by norm_num)
    have hlen : (stripChars
      "AAAAAAAAAAAAAAAAAAAAAAAAAAAAAAAAAAAAAAAAAAAAAAAAAA".data).length = 50 := by
      decide
    have hle : ((50:ℕ):ℚ)/200 ≤ 1 := by norm_num
    rw [h.1, hlen, min_eq_right hle]
    norm_num

/-- C9: a presence metric with a non-empty `required_tags` list scores the
fraction of tags whose literal opening form (`<tag>` or `<tag `) appears in
the text, and the tags found neither way are listed in the single emitted
issue (no issue when none are missing). -/
theorem presence_required_tags_spec (response : String) (metric : QualityMetric)
    (tags : List String)
    (hmt : metric.measurement_type = "presence")
    (hrt : metric.criteria.required_tags = some tags) (hne : tags ≠ []) :
    (evaluate_metric response metric).1 =
      ((tags.filter (tagAppears response)).length : ℚ) / tags.length ∧
    (evaluate_metric response metric).2.1 =
      (if (tags.filter (fun tg => ¬tagAppears response tg)).isEmpty then []
       else ["Missing required elements: " ++
         joinSep ", " (tags.filter (fun tg => ¬tagAppears response tg))]) := by
  have hd : evaluate_metric response metric = measure_presence response metric := by
    unfold evaluate_metric
    rw [if_neg (by rw [hmt]; decide), if_neg (by rw [hmt]; decide),
        if_neg (by rw [hmt]; decide), if_pos hmt]
  rw [hd]
  unfold measure_presence
  rw [hrt]
  simp only
  rw [if_pos (show ¬tags.isEmpty by simp [List.isEmpty_iff, hne])]
  by_cases hm : (tags.filter (fun tg => ¬tagAppears response tg)).isEmpty
  · rw [if_neg (not_not_intro hm), if_pos hm]
    exact ⟨rfl, rfl⟩
  · rw [if_pos hm, if_neg hm]
    exact ⟨rfl, rfl⟩

/-- Witness for C9: tags `["x","y"]` against a text containing only `<x>`
give score `1/2` and an issue naming `y`. -/
theorem presence_required_tags_spec_witness :
    (evaluate_metric "foo <x> bar"
      { name := "structured_format", description := "", weight := 1,
        threshold := 1, measurement_type := "presence",
        criteria := { required_tags := some ["x", "y"] } }).1 = 1/2 ∧
    (evaluate_metric "foo <x> bar"
      { name := "structured_format", description := "", weight := 1,
        threshold := 1, measurement_type := "presence",
        criteria := { required_tags := some ["x", "y"] } }).2.1 =
      ["Missing required elements: y"] := by
  have h := presence_required_tags_spec "foo <x> bar"
    { name := "structured_format", description := "", weight := 1,
      threshold := 1, measurement_type := "presence",
      criteria := { required_tags := some ["x", "y"] } }
    ["x", "y"] rfl rfl (by decide)
  have hf : (List.filter (tagAppears "foo <x> bar") ["x", "y"]).length = 1 := by
    decide
  constructor
  · rw [h.1, hf]; norm_num
  · rw [h.2]; decide

/-- C10: a ratio metric with a `min_content_ratio` criterion returns the
neutral score `1/2` with no issue when the text contains no complete
`<tag>content</tag>` element pair, avoiding the division by zero of the
fraction formula. -/
theorem ratio_no_elements_spec (response : String) (metric : QualityMetric) (r : ℚ)
    (hmt : metric.measurement_type = "ratio")
    (hmc : metric.criteria.min_content_ratio = some r)
    (hne : findElementPairs response.data = []) :
    evaluate_metric response metric = (1/2, [], []) := by
  have hd : evaluate_metric response metric = measure_ratio response metric := by
    unfold evaluate_metric
    rw [if_neg (by rw [hmt]; decide), if_neg (by rw [hmt]; decide), if_pos hmt]
  rw [hd]
  unfold measure_ratio
  rw [hmc]
  simp only
  rw [if_pos (by simp [hne])]

/-- Witness for C10 at a text with no element pair. -/
theorem ratio_no_elements_spec_witness :
    evaluate_metric "plain text with no tags"
      { name := "content_completeness", description := "", weight := 1,
        threshold := 0.7, measurement_type := "ratio",
        criteria := { min_content_ratio := some 0.8 } } = (1/2, [], []) :=
  ratio_no_elements_spec "plain text with no tags"
    { name := "content_completeness", description := "", weight := 1,
      threshold := 0.7, measurement_type := "ratio",
      criteria := { min_content_ratio := some 0.8 } }
    0.8 rfl rfl (by decide)

theorem flatMap_ite_eq_filter_map {α β : Type} (l : List α) (P : α → Prop)
    [DecidablePred P] (f : α → β) :
    (l.flatMap fun a => if P a then [f a] else []) =
      (l.filter (fun a => P a)).map f := by
  induction l with
  | nil => rfl
  | cons a t ih =>
    by_cases h : P a <;> simp [List.filter_cons, h, ih]

/-- C5 (corrected): for a format rule with a regex criterion, a violation is
raised for a matched element exactly when the element has non-empty text and
Python's `re.match` — anchored at the start only, not at both ends — fails on
the trimmed text; an element with absent (or empty) text raises nothing. -/
theorem check_format_pattern_spec (root : XMLElem) (rule : ValidationRule)
    (p : RCParams) (pat : RE)
    (hc : rule.criteria = .dict p) (hp : p.pattern = some pat) :
    check_format root rule =
      ((find_elements root rule.element_path).filter (fun elem =>
        textTruthy elem.text ∧
        ¬matchAtStart pat (stripChars (elem.text.getD "").data))).map
        (fun elem => "Element '" ++ rule.element_path ++ "' format invalid: '" ++
          (⟨stripChars (elem.text.getD "").data⟩ : String) ++ "'") := by
  unfold check_format
  simp only [hc, hp]
  exact flatMap_ite_eq_filter_map _ _ _

/-- Counterexample to C5 as stated: a format rule whose regex `a` matches a
strict prefix of the element text `ab`. The code raises no violation
(`re.match` accepted the prefix), although the text does not fully match the
anchored regex, as the claim requires. -/
theorem check_format_counterexample :
    check_format
      { tag := "r", text := none,
        children := [{ tag := "c", text := some "ab", children := [] }] }
      { element_path := "c", rule_type := "format",
        criteria := .dict { pattern := some (strRE "a") } } = [] ∧
    textTruthy (some "ab") = true ∧
    fullMatchAnchored (strRE "a") (stripChars "ab".data) = false := by
  refine ⟨by decide, rfl, by decide⟩

/-- Witness for C5's corrected statement at a concrete schema and tree. -/
theorem check_format_pattern_spec_witness :
    check_format
      { tag := "r", text := none,
        children := [{ tag := "c", text := some "12", children := [] },
                     { tag := "c", text := some "xy", children := [] }] }
      { element_path := "c", rule_type := "format",
        criteria := .dict { pattern := some (plusRE RE.digit) } } =
      ["Element 'c' format invalid: 'xy'"] := by
  have h := check_format_pattern_spec
    { tag := "r", text := none,
      children := [{ tag := "c", text := some "12", children := [] },
                   { tag := "c", text := some "xy", children := [] }] }
    { element_path := "c", rule_type := "format",
      criteria := .dict { pattern := some (plusRE RE.digit) } }
    { pattern := some (plusRE RE.digit) } (plusRE RE.digit) rfl rfl
  rw [h]
  decide

/-- C4: on any input that parses, the validator's score is
`100 * max(0, (errorRuleCount - errorsRaised)/errorRuleCount)` where
`errorRuleCount` counts only error-severity rules of the resolved rule set
(score `100` when there are none), and `is_valid` holds iff the errors list
is empty. -/
theorem validate_xml_score_spec (custom : List (String × List ValidationRule))
    (xml schema_name : String) (root : XMLElem)
    (h : parseXML xml = .ok root) :
    ((validate_xml custom xml schema_name).score =
      (if 0 < ((resolveSchema custom schema_name).1.filter
          (fun r => r.severity = "error")).length then
        100 * max 0 (((((resolveSchema custom schema_name).1.filter
            (fun r => r.severity = "error")).length : ℚ) -
          (validate_xml custom xml schema_name).errors.length) /
          (((resolveSchema custom schema_name).1.filter
            (fun r => r.severity = "error")).length : ℚ))
       else 100)) ∧
    ((validate_xml custom xml schema_name).is_valid ↔
      (validate_xml custom xml schema_name).errors = []) := by
  unfold validate_xml
  rw [h]
  simp only
  set rules := (resolveSchema custom schema_name).1 with hr
  set E := (rules.foldl (vStep root xml) ([], (resolveSchema custom schema_name).2,
    [])).1 with hE
  set t := (rules.filter (fun r => r.severity = "error")).length with ht
  constructor
  · by_cases h0 : 0 < t
    · rw [if_pos h0, if_pos h0]
      rw [mul_max_of_nonneg _ _ (by norm_num : (0:ℚ) ≤ 100), mul_zero, mul_comm]
    · rw [if_neg h0, if_neg h0]
  · simp [List.isEmpty_iff]

/-- Witness for C4 at a well-formed document and the general schema. -/
theorem validate_xml_score_spec_witness :
    (validate_xml [] "<a>hi</a>" "general_analysis").score = 100 ∧
    ((validate_xml [] "<a>hi</a>" "general_analysis").is_valid ↔
      (validate_xml [] "<a>hi</a>" "general_analysis").errors = []) := by
  have h := validate_xml_score_spec [] "<a>hi</a>" "general_analysis"
    { tag := "a", text := some "hi", children := [] } (by rfl)
  refine ⟨?_, h.2⟩
  have herr : (validate_xml [] "<a>hi</a>" "general_analysis").errors = [] := by
    decide
  have hC : ((resolveSchema ([] : List (String × List ValidationRule))
      "general_analysis").1.filter (fun r => r.severity = "error")).length = 1 := by
    decide
  rw [h.1, herr, hC]
  rw [if_pos (by norm_num : 0 < 1)]
  have h1 : (((1:ℕ):ℚ) - (([] : List String).length : ℚ)) / ((1:ℕ):ℚ) = 1 := by
    norm_num
  rw [h1, max_eq_right (by norm_num : (0:ℚ) ≤ 1)]
  norm_num

theorem resolvedMetrics_of_not_found (name : String) (ee : Option (List String))
    (h : quality_frameworks.find? (fun q => q.1 = name) = none) :
    resolvedMetrics name ee = resolvedMetrics "general_analysis" ee := by
  unfold resolvedMetrics
  rw [h]
  simp

theorem vFold_warnings_append (root : XMLElem) (xml : String)
    (rules : List ValidationRule) :
    ∀ acc : List String × List String × List String,
      ∃ t, (rules.foldl (vStep root xml) acc).2.1 = acc.2.1 ++ t := by
  induction rules with
  | nil => intro acc; exact ⟨[], by simp⟩
  | cons r rest ih =>
    intro acc
    obtain ⟨t, ht⟩ := ih (vStep root xml acc r)
    rw [List.foldl_cons, ht]
    unfold vStep
    split_ifs
    · exact ⟨t, rfl⟩
    · exact ⟨apply_rule root r xml ++ t, by simp⟩
    · exact ⟨t, rfl⟩

theorem pattern_no_issue (response : String) (m : QualityMetric) (ps : List RE)
    (hmt : m.measurement_type = "pattern") (hps : m.criteria.patterns = some ps)
    (hne : ps ≠ [])
    (h : ¬(((ps.filter (fun p => searchRE true p response.data)).length : ℚ) /
      (ps.length : ℚ) < m.threshold)) :
    (evaluate_metric response m).2 = ([], []) := by
  have hd : evaluate_metric response m = measure_pattern response m := by
    unfold evaluate_metric
    rw [if_neg (by rw [hmt]; decide), if_neg (by rw [hmt]; decide),
        if_neg (by rw [hmt]; decide), if_neg (by rw [hmt]; decide), if_pos hmt]
  rw [hd]
  unfold measure_pattern
  rw [hps]
  simp only
  rw [if_pos (show ¬ps.isEmpty by simp [List.isEmpty_iff, hne]), if_neg h]

theorem blacklist_no_issue (response : String) (m : QualityMetric)
    (bs : List (String × RE))
    (hmt : m.measurement_type = "pattern") (hps : m.criteria.patterns = none)
    (hbl : m.criteria.blacklist = some bs)
    (h : bs.filter (fun p => searchRE true p.2 response.data) = []) :
    (evaluate_metric response m).2 = ([], []) := by
  have hd : evaluate_metric response m = measure_pattern response m := by
    unfold evaluate_metric
    rw [if_neg (by rw [hmt]; decide), if_neg (by rw [hmt]; decide),
        if_neg (by rw [hmt]; decide), if_neg (by rw [hmt]; decide), if_pos hmt]
  rw [hd]
  unfold measure_pattern
  rw [hps, hbl]
  simp [h]

theorem count_sections_no_issue (response : String) (m : QualityMetric) (t : ℚ)
    (hmt : m.measurement_type = "count") (hmc : m.criteria.min_chars = none)
    (hms : m.criteria.min_sections = some t)
    (h : (((section_indicators.map
      (fun p => countMatches p response.data)).sum : ℕ) : ℚ) ≥ t) :
    evaluate_metric response m = (1, [], []) := by
  have hd : evaluate_metric response m = measure_count response m := by
    unfold evaluate_metric
    rw [if_neg (by rw [hmt]; decide), if_pos hmt]
  rw [hd]
  unfold measure_count
  rw [hmc]
  simp only
  rw [hms]
  simp only
  rw [if_pos h]

/-- C3: the confidence level of `analyze_response` is the mean of the
recorded scores of exactly those resolved metrics whose weight is at least
`0.2`, falling back to the unweighted mean of all recorded scores when no
metric qualifies; in particular metrics A (weight 0.3, score 0.9) and B
(weight 0.1, score 0.2) give confidence `0.9`. -/
theorem confidence_two_tier_spec :
    (∀ (response framework : String) (ee : Option (List String))
        (tu : Option (List (String × Nat))),
      (analyze_response response framework ee tu).confidence_level =
        (if ((resolvedMetrics framework ee).filter
            (fun m => m.weight ≥ 0.2)).isEmpty then
          ((analyze_response response framework ee tu).metric_scores.map
            (fun p => p.2)).sum /
            (((analyze_response response framework ee tu).metric_scores.length : ℕ) : ℚ)
        else
          (((resolvedMetrics framework ee).filter (fun m => m.weight ≥ 0.2)).map
            (fun m => lookupScore m.name
              (analyze_response response framework ee tu).metric_scores)).sum /
            ((((resolvedMetrics framework ee).filter
              (fun m => m.weight ≥ 0.2)).length : ℕ) : ℚ))) ∧
    calculate_confidence [("A", 0.9), ("B", 0.2)]
      [{ name := "A", description := "", weight := 0.3, threshold := 1,
         measurement_type := "pattern", criteria := {} },
       { name := "B", description := "", weight := 0.1, threshold := 1,
         measurement_type := "pattern", criteria := {} }] = 0.9 := by
  constructor
  · intro response framework ee tu
    simp only [analyze_response]
    unfold calculate_confidence
    set M := resolvedMetrics framework ee with hM
    set S := (M.foldl (evalStep response) ([], [], [])).1 with hS
    by_cases h : M.filter (fun m => m.weight ≥ 0.2) = []
    · rw [h]
      simp
    · have h1 : ¬((M.filter (fun m => m.weight ≥ 0.2)).map
          (fun m => lookupScore m.name S)).isEmpty := by
        simp [List.isEmpty_iff, h]
      have h2 : ¬(M.filter (fun m => m.weight ≥ 0.2)).isEmpty := by
        simp [List.isEmpty_iff, h]
      rw [if_neg h1, if_neg h2, List.length_map]
  · norm_num [calculate_confidence, lookupScore, List.filter_cons,
      List.filter_nil, List.find?_cons, List.find?_nil]

/-- C6 (corrected): an unknown schema name makes the validator fall back to
the general rule set and surface a warning in the result (on parseable
input), but an unknown framework name makes the analyzer fall back
silently — its result is identical to a `general_analysis` call, with no
warning surfaced anywhere. -/
theorem unknown_name_fallback_spec :
    (∀ (custom : List (String × List ValidationRule)) (name : String),
      builtin_schemas.find? (fun q => q.1 = name) = none →
      custom.find? (fun q => q.1 = name) = none →
      resolveSchema custom name = (create_general_schema,
        ["Schema '" ++ name ++ "' not found, using general validation"])) ∧
    (∀ (custom : List (String × List ValidationRule)) (xml name : String)
        (root : XMLElem),
      parseXML xml = .ok root →
      builtin_schemas.find? (fun q => q.1 = name) = none →
      custom.find? (fun q => q.1 = name) = none →
      ("Schema '" ++ name ++ "' not found, using general validation") ∈
        (validate_xml custom xml name).warnings) ∧
    (∀ (response name : String) (ee : Option (List String))
        (tu : Option (List (String × Nat))),
      quality_frameworks.find? (fun q => q.1 = name) = none →
      analyze_response response name ee tu =
        analyze_response response "general_analysis" ee tu) := by
  refine ⟨?_, ?_, ?_⟩
  · intro custom name h1 h2
    unfold resolveSchema
    rw [h1, h2]
  · intro custom xml name root hp h1 h2
    have hr : resolveSchema custom name = (create_general_schema,
        ["Schema '" ++ name ++ "' not found, using general validation"]) := by
      unfold resolveSchema; rw [h1, h2]
    unfold validate_xml
    rw [hp]
    simp only [hr]
    obtain ⟨t, ht⟩ := vFold_warnings_append root xml create_general_schema
      ([], ["Schema '" ++ name ++ "' not found, using general validation"], [])
    rw [ht]
    exact List.mem_append_left _ (List.mem_singleton_self _)
  · intro response name ee tu h
    unfold analyze_response
    rw [resolvedMetrics_of_not_found name ee h]

/-- Witness for the corrected C6 at concrete names and inputs. -/
theorem unknown_name_fallback_spec_witness :
    resolveSchema [] "nope" = (create_general_schema,
      ["Schema 'nope' not found, using general validation"]) ∧
    ("Schema 'nope' not found, using general validation") ∈
      (validate_xml [] "<a>hi</a>" "nope").warnings ∧
    analyze_response "x" "nope" none none =
      analyze_response "x" "general_analysis" none none := by
  refine ⟨?_, ?_, ?_⟩
  · have h := unknown_name_fallback_spec.1 [] "nope" (by rfl) (by rfl)
    rw [h]
    rfl
  · have h := unknown_name_fallback_spec.2.1 [] "<a>hi</a>" "nope"
      { tag := "a", text := some "hi", children := [] } (by rfl) (by rfl) (by rfl)
    exact h
  · exact unknown_name_fallback_spec.2.2 "x" "nope" none none (by rfl)

/-- Counterexample to C6 as stated: calling `analyze_response` with an
unregistered framework name yields a result identical to a call with
`general_analysis`, and on this input both message channels of the result
are empty — no warning about the fallback is surfaced to the caller
anywhere (the result has no warning field at all). -/
theorem analyzer_silent_fallback_counterexample :
    analyze_response sampleGeneralText "mystery_framework" none none =
      analyze_response sampleGeneralText "general_analysis" none none ∧
    (analyze_response sampleGeneralText "mystery_framework" none
      none).issues_found = [] ∧
    (analyze_response sampleGeneralText "mystery_framework" none
      none).suggestions = [] := by
  have heq : analyze_response sampleGeneralText "mystery_framework" none none =
      analyze_response sampleGeneralText "general_analysis" none none := by
    unfold analyze_response
    rw [resolvedMetrics_of_not_found "mystery_framework" none (by rfl)]
  have hres : resolvedMetrics "general_analysis" none = create_general_metrics :=
    by rfl
  have e1 : (evaluate_metric sampleGeneralText clarity_metric).2 = ([], []) := by
    refine pattern_no_issue _ _ clarityPatterns rfl rfl (by decide) ?_
    have hl : (clarityPatterns.filter
        (fun p => searchRE true p sampleGeneralText.data)).length = 5 := by decide
    have hl2 : clarityPatterns.length = 7 := by decide
    rw [hl, hl2]
    norm_num [clarity_metric]
  have e2 : evaluate_metric sampleGeneralText completeness_metric =
      (1, [], []) := by
    refine count_sections_no_issue _ _ 3 rfl rfl rfl ?_
    have hl : (section_indicators.map
        (fun p => countMatches p sampleGeneralText.data)).sum = 3 := by decide
    rw [hl]
    norm_num
  have e3 : (evaluate_metric sampleGeneralText
      confidence_calibration_metric).2 = ([], []) := by
    refine pattern_no_issue _ _ calibrationPatterns rfl rfl (by decide) ?_
    have hl : (calibrationPatterns.filter
        (fun p => searchRE true p sampleGeneralText.data)).length = 3 := by decide
    have hl2 : calibrationPatterns.length = 4 := by decide
    rw [hl, hl2]
    norm_num [confidence_calibration_metric]
  have e4 : (evaluate_metric sampleGeneralText evidence_based_metric).2 =
      ([], []) := by
    refine pattern_no_issue _ _ evidencePatterns rfl rfl (by decide) ?_
    have hl : (evidencePatterns.filter
        (fun p => searchRE true p sampleGeneralText.data)).length = 3 := by decide
    have hl2 : evidencePatterns.length = 5 := by decide
    rw [hl, hl2]
    norm_num [evidence_based_metric]
  have e5 : (evaluate_metric sampleGeneralText professional_tone_metric).2 =
      ([], []) := by
    exact blacklist_no_issue _ _ toneBlacklist rfl rfl rfl (by decide)
  have e6 : (evaluate_metric sampleGeneralText limitation_awareness_metric).2 =
      ([], []) := by
    refine pattern_no_issue _ _ limitationPatterns rfl rfl (by decide) ?_
    have hl : (limitationPatterns.filter
        (fun p => searchRE true p sampleGeneralText.data)).length = 2 := by decide
    have hl2 : limitationPatterns.length = 5 := by decide
    rw [hl, hl2]
    norm_num [limitation_awareness_metric]
  have p1 : (evaluate_metric sampleGeneralText clarity_metric).2.1 = [] := by
    rw [e1]
  have q1 : (evaluate_metric sampleGeneralText clarity_metric).2.2 = [] := by
    rw [e1]
  have p3 : (evaluate_metric sampleGeneralText
      confidence_calibration_metric).2.1 = [] := by rw [e3]
  have q3 : (evaluate_metric sampleGeneralText
      confidence_calibration_metric).2.2 = [] := by rw [e3]
  have p4 : (evaluate_metric sampleGeneralText evidence_based_metric).2.1 = [] :=
    by rw [e4]
  have q4 : (evaluate_metric sampleGeneralText evidence_based_metric).2.2 = [] :=
    by rw [e4]
  have p5 : (evaluate_metric sampleGeneralText professional_tone_metric).2.1 = [] :=
    by rw [e5]
  have q5 : (evaluate_metric sampleGeneralText professional_tone_metric).2.2 = [] :=
    by rw [e5]
  have p6 : (evaluate_metric sampleGeneralText
      limitation_awareness_metric).2.1 = [] := by rw [e6]
  have q6 : (evaluate_metric sampleGeneralText
      limitation_awareness_metric).2.2 = [] := by rw [e6]
  refine ⟨heq, ?_, ?_⟩
  · rw [heq]
    unfold analyze_response
    rw [hres]
    simp only [create_general_metrics, List.foldl_cons, List.foldl_nil, evalStep,
      e2, p1, q1, p3, q3, p4, q4, p5, q5, p6, q6, List.append_nil,
      List.nil_append]
  · rw [heq]
    unfold analyze_response
    rw [hres]
    simp only [create_general_metrics, List.foldl_cons, List.foldl_nil, evalStep,
      e2, p1, q1, p3, q3, p4, q4, p5, q5, p6, q6, List.append_nil,
      List.nil_append]

theorem mem_dictInsert {k : String} {v : ℚ} {d : List (String × ℚ)}
    {p : String × ℚ} (h : p ∈ dictInsert k v d) : p = (k, v) ∨ p ∈ d := by
  induction d with
  | nil =>
    simp only [dictInsert, List.mem_singleton] at h
    exact Or.inl h
  | cons q rest ih =>
    obtain ⟨k2, v2⟩ := q
    by_cases hk : k2 = k
    · simp only [dictInsert, if_pos hk] at h
      rcases List.mem_cons.mp h with h | h
      · exact Or.inl h
      · exact Or.inr (List.mem_cons_of_mem _ h)
    · simp only [dictInsert, if_neg hk] at h
      rcases List.mem_cons.mp h with h | h
      · exact Or.inr (by simp [h])
      · rcases ih h with h | h
        · exact Or.inl h
        · exact Or.inr (List.mem_cons_of_mem _ h)

theorem foldl_scores_bound (response : String) (metrics : List QualityMetric) :
    ∀ init : List (String × ℚ) × List String × List String,
      (∀ p ∈ init.1, 0 ≤ p.2 ∧ p.2 ≤ 1) →
      ∀ p ∈ (metrics.foldl (evalStep response) init).1, 0 ≤ p.2 ∧ p.2 ≤ 1 := by
  induction metrics with
  | nil => intro init h p hp; exact h p hp
  | cons m rest ih =>
    intro init h p hp
    rw [List.foldl_cons] at hp
    refine ih _ ?_ p hp
    intro q hq
    simp only [evalStep] at hq
    rcases mem_dictInsert hq with h1 | h1
    · rw [h1]
      exact evaluate_metric_bounds response m
    · exact h q h1

theorem lookupScore_bound (k : String) (d : List (String × ℚ))
    (h : ∀ p ∈ d, 0 ≤ p.2 ∧ p.2 ≤ 1) :
    0 ≤ lookupScore k d ∧ lookupScore k d ≤ 1 := by
  unfold lookupScore
  cases hf : d.find? (fun p => p.1 = k) with
  | none => norm_num
  | some q =>
    simp only [Option.map_some', Option.getD_some]
    exact h q (List.mem_of_find?_eq_some hf)

theorem weighted_sum_bound (metrics : List QualityMetric)
    (f : QualityMetric → ℚ)
    (hf : ∀ m ∈ metrics, 0 ≤ f m ∧ f m ≤ 1)
    (hw : ∀ m ∈ metrics, 0 ≤ m.weight) :
    0 ≤ (metrics.map (fun m => f m * m.weight)).sum ∧
    (metrics.map (fun m => f m * m.weight)).sum ≤
      (metrics.map (fun m => m.weight)).sum := by
  induction metrics with
  | nil => simp
  | cons m rest ih =>
    simp only [List.map_cons, List.sum_cons]
    have hm := hf m (by simp)
    have hwm := hw m (by simp)
    have ihh := ih (fun x hx => hf x (by simp [hx]))
      (fun x hx => hw x (by simp [hx]))
    constructor
    · have h0 : 0 ≤ f m * m.weight := mul_nonneg hm.1 hwm
      linarith [ihh.1]
    · have h1 : f m * m.weight ≤ m.weight := by
        calc f m * m.weight ≤ 1 * m.weight :=
              mul_le_mul_of_nonneg_right hm.2 hwm
          _ = m.weight := one_mul _
      linarith [ihh.2]

theorem quality_frameworks_find (framework : String) :
    quality_frameworks.find? (fun q => q.1 = framework) = none ∨
    framework = "insurance_claims" ∨ framework = "legal_review" ∨
    framework = "medical_analysis" ∨ framework = "general_analysis" ∨
    framework = "structured_output" := by
  cases hf : quality_frameworks.find? (fun q => q.1 = framework) with
  | none => exact Or.inl rfl
  | some q =>
    right
    have hq := List.mem_of_find?_eq_some hf
    have hpq : q.1 = framework := by
      have := List.find?_some hf
      simpa using this
    simp only [quality_frameworks, List.mem_cons, List.not_mem_nil, or_false]
      at hq
    rcases hq with h | h | h | h | h <;> rw [h] at hpq
    · exact Or.inl hpq.symm
    · exact Or.inr (Or.inl hpq.symm)
    · exact Or.inr (Or.inr (Or.inl hpq.symm))
    · exact Or.inr (Or.inr (Or.inr (Or.inl hpq.symm)))
    · exact Or.inr (Or.inr (Or.inr (Or.inr hpq.symm)))

theorem resolvedMetrics_insurance (ee : Option (List String)) :
    resolvedMetrics "insurance_claims" ee = create_insurance_metrics := by
  rcases ee with _ | tags <;> rfl

theorem resolvedMetrics_legal (ee : Option (List String)) :
    resolvedMetrics "legal_review" ee = create_legal_metrics := by
  rcases ee with _ | tags <;> rfl

theorem resolvedMetrics_medical (ee : Option (List String)) :
    resolvedMetrics "medical_analysis" ee = create_medical_metrics := by
  rcases ee with _ | tags <;> rfl

theorem resolvedMetrics_general (ee : Option (List String)) :
    resolvedMetrics "general_analysis" ee = create_general_metrics := by
  rcases ee with _ | tags <;> rfl

theorem resolvedMetrics_structured (ee : Option (List String)) :
    resolvedMetrics "structured_output" ee = create_structured_metrics ∨
    ∃ tags, resolvedMetrics "structured_output" ee =
      create_structured_metrics.map (fun m =>
        if m.name = "required_elements" then
          { m with criteria := { m.criteria with required_tags := some tags } }
        else m) := by
  rcases ee with _ | tags
  · exact Or.inl rfl
  · by_cases h : tags.isEmpty
    · left
      show (if ("structured_output" : String) = "structured_output" ∧
        ¬tags.isEmpty then _ else _) = _
      rw [if_neg (fun hc => hc.2 h)]
      rfl
    · right
      refine ⟨tags, ?_⟩
      show (if ("structured_output" : String) = "structured_output" ∧
        ¬tags.isEmpty then _ else _) = _
      rw [if_pos ⟨rfl, h⟩]
      rfl

theorem insurance_weights :
    ((create_insurance_metrics.map (fun m => m.weight)).sum = 1) ∧
    ∀ m ∈ create_insurance_metrics, 0 ≤ m.weight := by
  constructor
  · norm_num [create_insurance_metrics]
  · intro m hm
    simp only [create_insurance_metrics, List.mem_cons, List.not_mem_nil,
      or_false] at hm
    rcases hm with rfl | rfl | rfl | rfl | rfl | rfl <;> norm_num

theorem legal_weights :
    ((create_legal_metrics.map (fun m => m.weight)).sum = 1) ∧
    ∀ m ∈ create_legal_metrics, 0 ≤ m.weight := by
  constructor
  · norm_num [create_legal_metrics]
  · intro m hm
    simp only [create_legal_metrics, List.mem_cons, List.not_mem_nil,
      or_false] at hm
    rcases hm with rfl | rfl | rfl | rfl | rfl | rfl <;> norm_num

theorem medical_weights :
    ((create_medical_metrics.map (fun m => m.weight)).sum = 1) ∧
    ∀ m ∈ create_medical_metrics, 0 ≤ m.weight := by
  constructor
  · norm_num [create_medical_metrics]
  · intro m hm
    simp only [create_medical_metrics, List.mem_cons, List.not_mem_nil,
      or_false] at hm
    rcases hm with rfl | rfl | rfl | rfl | rfl | rfl <;> norm_num

theorem general_weights :
    ((create_general_metrics.map (fun m => m.weight)).sum = 1) ∧
    ∀ m ∈ create_general_metrics, 0 ≤ m.weight := by
  constructor
  · norm_num [create_general_metrics, clarity_metric, completeness_metric,
      confidence_calibration_metric, evidence_based_metric,
      professional_tone_metric, limitation_awareness_metric]
  · intro m hm
    simp only [create_general_metrics, List.mem_cons, List.not_mem_nil,
      or_false] at hm
    rcases hm with rfl | rfl | rfl | rfl | rfl | rfl <;>
      norm_num [clarity_metric, completeness_metric,
        confidence_calibration_metric, evidence_based_metric,
        professional_tone_metric, limitation_awareness_metric]

theorem structured_weights :
    ((create_structured_metrics.map (fun m => m.weight)).sum = 1) ∧
    ∀ m ∈ create_structured_metrics, 0 ≤ m.weight := by
  constructor
  · norm_num [create_structured_metrics]
  · intro m hm
    simp only [create_structured_metrics, List.mem_cons, List.not_mem_nil,
      or_false] at hm
    rcases hm with rfl | rfl | rfl | rfl <;> norm_num

theorem customized_weight (m : QualityMetric) (tags : List String) :
    (if m.name = "required_elements" then
      { m with criteria := { m.criteria with required_tags := some tags } }
      else m).weight = m.weight := by
  split_ifs <;> rfl

theorem structured_custom_weights (tags : List String) :
    (((create_structured_metrics.map (fun m =>
        if m.name = "required_elements" then
          { m with criteria := { m.criteria with required_tags := some tags } }
        else m)).map (fun m => m.weight)).sum = 1) ∧
    ∀ m ∈ create_structured_metrics.map (fun m =>
        if m.name = "required_elements" then
          { m with criteria := { m.criteria with required_tags := some tags } }
        else m), 0 ≤ m.weight := by
  constructor
  · rw [List.map_map]
    have hcomp : ((fun m : QualityMetric => m.weight) ∘ (fun m =>
        if m.name = "required_elements" then
          { m with criteria := { m.criteria with required_tags := some tags } }
        else m)) = fun m : QualityMetric => m.weight := by
      funext m
      simp only [Function.comp]
      exact customized_weight m tags
    rw [hcomp]
    exact structured_weights.1
  · intro m hm
    rcases List.mem_map.mp hm with ⟨m0, hm0, rfl⟩
    rw [customized_weight m0 tags]
    exact structured_weights.2 m0 hm0

theorem resolvedMetrics_weights (framework : String) (ee : Option (List String)) :
    ((resolvedMetrics framework ee).map (fun m => m.weight)).sum = 1 ∧
    ∀ m ∈ resolvedMetrics framework ee, 0 ≤ m.weight := by
  rcases quality_frameworks_find framework with hf | h | h | h | h | h
  · rw [resolvedMetrics_of_not_found framework ee hf, resolvedMetrics_general]
    exact general_weights
  · rw [h, resolvedMetrics_insurance]
    exact insurance_weights
  · rw [h, resolvedMetrics_legal]
    exact legal_weights
  · rw [h, resolvedMetrics_medical]
    exact medical_weights
  · rw [h, resolvedMetrics_general]
    exact general_weights
  · subst h
    rcases resolvedMetrics_structured ee with h | ⟨tags, h⟩
    · rw [h]; exact structured_weights
    · rw [h]; exact structured_custom_weights tags

theorem shiftE_mk (a : ℚ) (b d : ℤ) : shiftE (a, b) d = (a, b + d) := rfl

theorem scaleTo53_up (fuel : Nat) (q : ℚ) (h0 : fuel ≠ 0) (h : q < 2 ^ 52) :
    scaleTo53 fuel q = shiftE (scaleTo53 (fuel - 1) (q * 2)) (-1) := by
  rw [scaleTo53, if_neg h0, if_pos h]
  rfl

theorem scaleTo53_down (fuel : Nat) (q : ℚ) (h0 : fuel ≠ 0) (h1 : ¬q < 2 ^ 52)
    (h2 : 2 ^ 53 ≤ q) :
    scaleTo53 fuel q = shiftE (scaleTo53 (fuel - 1) (q / 2)) 1 := by
  rw [scaleTo53, if_neg h0, if_neg h1, if_pos h2]
  rfl

theorem scaleTo53_base (fuel : Nat) (q : ℚ) (h1 : ¬q < 2 ^ 52)
    (h2 : ¬2 ^ 53 ≤ q) :
    scaleTo53 fuel q = (q, 0) := by
  rw [scaleTo53]
  by_cases h0 : fuel = 0
  · rw [if_pos h0]
  · rw [if_neg h0, if_neg h1, if_neg h2]

theorem pattern_all_matched (response : String) (m : QualityMetric)
    (ps : List RE)
    (hmt : m.measurement_type = "pattern")
    (hps : m.criteria.patterns = some ps) (hne : ps ≠ [])
    (hall : ps.filter (fun p => searchRE true p response.data) = ps) :
    (evaluate_metric response m).1 = 1 := by
  have hd : evaluate_metric response m = measure_pattern response m := by
    unfold evaluate_metric
    rw [if_neg (by rw [hmt]; decide), if_neg (by rw [hmt]; decide),
      if_neg (by rw [hmt]; decide), if_neg (by rw [hmt]; decide), if_pos hmt]
  rw [hd]
  unfold measure_pattern
  rw [hps]
  simp only
  rw [hall, if_pos (by simp [List.isEmpty_iff, hne] : ¬ps.isEmpty)]
  have hpos : (0 : ℚ) < ps.length := by exact_mod_cast List.length_pos.mpr hne
  rw [div_self (ne_of_gt hpos)]
  split_ifs <;> simp

theorem presence_all_found (response : String) (m : QualityMetric)
    (tags : List String)
    (hmt : m.measurement_type = "presence")
    (hrt : m.criteria.required_tags = some tags) (hne : tags ≠ [])
    (hall : tags.filter (tagAppears response) = tags) :
    (evaluate_metric response m).1 = 1 := by
  have hd : evaluate_metric response m = measure_presence response m := by
    unfold evaluate_metric
    rw [if_neg (by rw [hmt]; decide), if_neg (by rw [hmt]; decide),
      if_neg (by rw [hmt]; decide), if_pos hmt]
  rw [hd]
  unfold measure_presence
  rw [hrt]
  simp only
  rw [hall, if_pos (by simp [List.isEmpty_iff, hne] : ¬tags.isEmpty)]
  have hpos : (0 : ℚ) < tags.length := by exact_mod_cast List.length_pos.mpr hne
  rw [div_self (ne_of_gt hpos)]
  split_ifs <;> simp

theorem foldl_scores_value (response : String) (metrics : List QualityMetric) :
    ∀ init : List (String × ℚ) × List String × List String,
      (∀ m ∈ metrics, (evaluate_metric response m).1 = 1) →
      (∀ p ∈ init.1, p.2 = 1) →
      ∀ p ∈ (metrics.foldl (evalStep response) init).1, p.2 = 1 := by
  induction metrics with
  | nil => intro init _ h p hp; exact h p hp
  | cons m rest ih =>
    intro init hv h p hp
    rw [List.foldl_cons] at hp
    refine ih _ (fun x hx => hv x (by simp [hx])) ?_ p hp
    intro q hq
    simp only [evalStep] at hq
    rcases mem_dictInsert hq with h1 | h1
    · rw [h1]
      exact hv m (by simp)
    · exact h q h1

/-- C1 (corrected): for every response, framework name and expected-element
list, every per-metric score recorded by `analyze_response` lies in `[0,1]`;
the overall score is nonnegative, equals exactly `100` times the weighted
sum of the recorded per-metric scores over the resolved metric set, and is
bounded by `100` times that set's total weight. Each built-in framework's
weights total `1` in exact arithmetic, but not as the source's IEEE
doubles, so the absolute bound of `100` claimed by the spec fails in the
program (see the counterexample). -/
theorem analyze_response_weighted_bounds (response framework : String)
    (ee : Option (List String)) (tu : Option (List (String × Nat))) :
    (∀ p ∈ (analyze_response response framework ee tu).metric_scores,
      0 ≤ p.2 ∧ p.2 ≤ 1) ∧
    0 ≤ (analyze_response response framework ee tu).overall_score ∧
    (analyze_response response framework ee tu).overall_score ≤
      100 * ((resolvedMetrics framework ee).map (fun m => m.weight)).sum ∧
    (analyze_response response framework ee tu).overall_score =
      100 * ((resolvedMetrics framework ee).map (fun m =>
        lookupScore m.name
          (analyze_response response framework ee tu).metric_scores *
        m.weight)).sum := by
  simp only [analyze_response]
  set M := resolvedMetrics framework ee with hM
  set S := (M.foldl (evalStep response) ([], [], [])).1 with hS
  have hSb : ∀ p ∈ S, 0 ≤ p.2 ∧ p.2 ≤ 1 := by
    rw [hS]
    exact foldl_scores_bound response M ([], [], []) (by simp)
  have hW := resolvedMetrics_weights framework ee
  rw [← hM] at hW
  have hws := weighted_sum_bound M (fun m => lookupScore m.name S)
    (fun m _ => lookupScore_bound m.name S hSb) hW.2
  refine ⟨hSb, ?_, ?_, mul_comm _ _⟩
  · exact mul_nonneg hws.1 (by norm_num)
  · calc (M.map (fun m => lookupScore m.name S * m.weight)).sum * 100 ≤
          (M.map (fun m => m.weight)).sum * 100 :=
          mul_le_mul_of_nonneg_right hws.2 (by norm_num)
      _ = 100 * (M.map (fun m => m.weight)).sum := mul_comm _ _

set_option maxHeartbeats 4000000 in
set_option maxRecDepth 100000 in
/-- Counterexample to C1 as stated: on this response every `legal_review`
metric scores exactly `1.0` (in the model and in the program alike, both
exactly representable), yet the program's `sum(score * weight ...) * 100`,
computed in binary64 as the source computes it, is
`3518437208883201/35184372088832 = 100.00000000000003 > 100`: the doubles
for the six legal weights sum to `1.0000000000000002`, so the overall
score exceeds the claimed upper bound of `100`. -/
theorem overall_score_float_counterexample :
    (∀ p ∈ (analyze_response legalPerfectText "legal_review" none
      none).metric_scores, p.2 = 1) ∧
    floatOverallScore (create_legal_metrics.map
      (fun m => fl64 (1 * fl64 m.weight))) =
      3518437208883201 / 35184372088832 ∧
    (100 : ℚ) < 3518437208883201 / 35184372088832 := by
  refine ⟨?_, ?_, by norm_num⟩
  · simp only [analyze_response]
    rw [resolvedMetrics_legal]
    refine foldl_scores_value legalPerfectText create_legal_metrics _ ?_
      (by simp)
    intro m hm
    simp only [create_legal_metrics, List.mem_cons,
      List.not_mem_nil, or_false] at hm
    rcases hm with rfl | rfl | rfl | rfl | rfl | rfl
    · exact presence_all_found _ _ _ rfl rfl (by decide) (by decide)
    · exact presence_all_found _ _ _ rfl rfl (by decide) (by decide)
    · exact pattern_all_matched _ _ _ rfl rfl (by decide) (by decide)
    · exact pattern_all_matched _ _ _ rfl rfl (by decide) (by decide)
    · exact pattern_all_matched _ _ _ rfl rfl (by decide) (by decide)
    · exact pattern_all_matched _ _ _ rfl rfl (by decide) (by decide)
  · have wa : fl64 (0.15 : ℚ) = 5404319552844595 / 36028797018963968 := by
      norm_num [fl64, scaleTo53_up, scaleTo53_down, scaleTo53_base,
        shiftE_mk, roundSig, roundHalfEven]
    have wb : fl64 (0.25 : ℚ) = 1 / 4 := by
      norm_num [fl64, scaleTo53_up, scaleTo53_down, scaleTo53_base,
        shiftE_mk, roundSig, roundHalfEven]
    have wc : fl64 (0.20 : ℚ) = 3602879701896397 / 18014398509481984 := by
      norm_num [fl64, scaleTo53_up, scaleTo53_down, scaleTo53_base,
        shiftE_mk, roundSig, roundHalfEven]
    have wd : fl64 (0.10 : ℚ) = 3602879701896397 / 36028797018963968 := by
      norm_num [fl64, scaleTo53_up, scaleTo53_down, scaleTo53_base,
        shiftE_mk, roundSig, roundHalfEven]
    have pa : fl64 (1 * (5404319552844595 / 36028797018963968 : ℚ)) =
        5404319552844595 / 36028797018963968 := by
      norm_num [fl64, scaleTo53_up, scaleTo53_down, scaleTo53_base,
        shiftE_mk, roundSig, roundHalfEven]
    have pb : fl64 (1 * (1 / 4 : ℚ)) = 1 / 4 := by
      norm_num [fl64, scaleTo53_up, scaleTo53_down, scaleTo53_base,
        shiftE_mk, roundSig, roundHalfEven]
    have pc : fl64 (1 * (3602879701896397 / 18014398509481984 : ℚ)) =
        3602879701896397 / 18014398509481984 := by
      norm_num [fl64, scaleTo53_up, scaleTo53_down, scaleTo53_base,
        shiftE_mk, roundSig, roundHalfEven]
    have pd : fl64 (1 * (3602879701896397 / 36028797018963968 : ℚ)) =
        3602879701896397 / 36028797018963968 := by
      norm_num [fl64, scaleTo53_up, scaleTo53_down, scaleTo53_base,
        shiftE_mk, roundSig, roundHalfEven]
    have s1 : fl64 ((0 : ℚ) + 5404319552844595 / 36028797018963968) =
        5404319552844595 / 36028797018963968 := by
      norm_num [fl64, scaleTo53_up, scaleTo53_down, scaleTo53_base,
        shiftE_mk, roundSig, roundHalfEven]
    have s2 : fl64 ((5404319552844595 / 36028797018963968 : ℚ) + 1 / 4) =
        3602879701896397 / 9007199254740992 := by
      norm_num [fl64, scaleTo53_up, scaleTo53_down, scaleTo53_base,
        shiftE_mk, roundSig, roundHalfEven]
    have s3 : fl64 ((3602879701896397 / 9007199254740992 : ℚ) +
        3602879701896397 / 18014398509481984) =
        1351079888211149 / 2251799813685248 := by
      norm_num [fl64, scaleTo53_up, scaleTo53_down, scaleTo53_base,
        shiftE_mk, roundSig, roundHalfEven]
    have s4 : fl64 ((1351079888211149 / 2251799813685248 : ℚ) +
        5404319552844595 / 36028797018963968) =
        6755399441055745 / 9007199254740992 := by
      norm_num [fl64, scaleTo53_up, scaleTo53_down, scaleTo53_base,
        shiftE_mk, roundSig, roundHalfEven]
    have s5 : fl64 ((6755399441055745 / 9007199254740992 : ℚ) +
        5404319552844595 / 36028797018963968) =
        4053239664633447 / 4503599627370496 := by
      norm_num [fl64, scaleTo53_up, scaleTo53_down, scaleTo53_base,
        shiftE_mk, roundSig, roundHalfEven]
    have s6 : fl64 ((4053239664633447 / 4503599627370496 : ℚ) +
        3602879701896397 / 36028797018963968) =
        4503599627370497 / 4503599627370496 := by
      norm_num [fl64, scaleTo53_up, scaleTo53_down, scaleTo53_base,
        shiftE_mk, roundSig, roundHalfEven]
    have sf : fl64 ((4503599627370497 / 4503599627370496 : ℚ) * 100) =
        3518437208883201 / 35184372088832 := by
      norm_num [fl64, scaleTo53_up, scaleTo53_down, scaleTo53_base,
        shiftE_mk, roundSig, roundHalfEven]
    simp only [floatOverallScore, create_legal_metrics, List.map_cons,
      List.map_nil, List.foldl_cons, List.foldl_nil, wa, wb, wc, wd,
      pa, pb, pc, pd, s1, s2, s3, s4, s5, s6, sf]

end S2P
